import Mathlib

/-
  A shallow embedding of the melonDS software 3D renderer core
  (GPU3D_Soft.cpp), together with theorems that check the claims the
  specification makes about the interpolator, the edge slopes, the
  depth tests, alpha blending, translucent plotting, texture lookup,
  per-pixel rendering, fog density, scanline addressing and the
  shadow-mask stencil pass.

  Conventions used throughout:
  * C++ `s32`/`s64` values are modelled as `Int`.  Unsigned 32-bit
    values and signed-to-unsigned casts are modelled with an explicit
    reduction modulo 2^32.  Signed overflow is undefined behaviour in
    the source; every theorem below keeps its signed intermediates in
    range, and all concrete evaluations use in-range inputs only.
  * C++ `/` on signed operands truncates toward zero: `Int.tdiv`.
  * C++ `>>` on a signed value is an arithmetic shift, that is floor
    division by a power of two: `Int` division `/` by `2 ^ k`.
  * C++ `>>`/`<<` on unsigned values are `Nat.shiftRight`/`Nat.shiftLeft`.
  * Buffers (color, depth, attribute, stencil, VRAM) are modelled as
    total functions from addresses to values.
-/

namespace SoftRenderer

/-- The unsigned 32-bit representative of a signed value (a C++ cast
from `s32`/`s64` to `u32`). -/
def u32 (a : Int) : Nat := (a % (2 ^ 32)).toNat

/-- Read an unsigned 32-bit quantity back as a signed 32-bit value
(the C++ conversion from `u32` to `s32`). -/
def s32ofU32 (n : Nat) : Int :=
  if n % 2 ^ 32 < 2 ^ 31 then ((n % 2 ^ 32 : Nat) : Int)
  else ((n % 2 ^ 32 : Nat) : Int) - 2 ^ 32

/-- Truncation of a signed quantity to signed 32 bits (a C++ narrowing
conversion from `s64` to `s32`). -/
def wrap32 (a : Int) : Int := (a + 2 ^ 31) % 2 ^ 32 - 2 ^ 31

/-- Two's-complement bitwise AND of a signed 32-bit value with a
nonnegative mask, as a natural number. -/
def sand (a : Int) (m : Nat) : Nat := u32 a &&& m

theorem wrap32_eq_self (a : Int) (h0 : -(2 ^ 31) ≤ a) (h1 : a < 2 ^ 31) :
    wrap32 a = a := by
  unfold wrap32; omega

theorem u32_of_nonneg {a : Int} (h0 : 0 ≤ a) (h1 : a < 2 ^ 32) :
    (u32 a : Int) = a := by
  unfold u32; omega

/-!  ## The fixed-point interpolator

`Interpolator<dir>` from the source (`dir = 0` along X, `dir = 1`
along Y).  The template parameter is stored as the field `dir`. -/

structure Interpolator where
  dir : Nat := 1
  x0 : Int := 0
  x1 : Int := 0
  xdiff : Int := 0
  x : Int := 0
  shift : Nat := 0
  linear : Bool := false
  xrecip : Int := 0
  xrecip_z : Int := 0
  w0n : Int := 0
  w0d : Int := 0
  w1d : Int := 0
  yfactor : Nat := 0
deriving Repr, DecidableEq

/-- `Interpolator::Setup(x0, x1, w0, w1)`. -/
def Interpolator.Setup (dir : Nat) (x0 x1 w0 w1 : Int) : Interpolator :=
  let xdiff := x1 - x0
  let xrecip := if xdiff ≠ 0 then Int.tdiv (2 ^ 30) xdiff else 0
  let xrecip_z := xrecip / 2 ^ 8
  let mask : Nat := if dir ≠ 0 then 0x7E else 0x7F
  let linear : Bool := w0 = w1 ∧ sand w0 mask = 0 ∧ sand w1 mask = 0
  if dir ≠ 0 then
    -- along Y
    if sand w0 1 = 1 ∧ sand w1 1 = 0 then
      { dir := dir, x0 := x0, x1 := x1, xdiff := xdiff, xrecip := xrecip,
        xrecip_z := xrecip_z, linear := linear,
        w0n := w0 - 1, w0d := w0 + 1, w1d := w1, shift := 9 }
    else
      { dir := dir, x0 := x0, x1 := x1, xdiff := xdiff, xrecip := xrecip,
        xrecip_z := xrecip_z, linear := linear,
        w0n := (sand w0 0xFFFE : Nat), w0d := (sand w0 0xFFFE : Nat),
        w1d := (sand w1 0xFFFE : Nat), shift := 9 }
  else
    -- along X
    { dir := dir, x0 := x0, x1 := x1, xdiff := xdiff, xrecip := xrecip,
      xrecip_z := xrecip_z, linear := linear,
      w0n := w0, w0d := w0, w1d := w1, shift := 8 }

/-- `Interpolator::SetX(x)`.  The displacement `x - x0` is always
stored; the perspective factor is recomputed only in non-linear mode.
The 64-bit numerator is exact here; its potential overflow is
undefined behaviour in the source. -/
def Interpolator.SetX (ip : Interpolator) (xin : Int) : Interpolator :=
  let x := xin - ip.x0
  if ip.xdiff ≠ 0 ∧ ip.linear = false then
    let num := (x * ip.w0n) * 2 ^ ip.shift
    let den := x * ip.w0d + (ip.xdiff - x) * ip.w1d
    let yf := if den = 0 then 0 else u32 (Int.tdiv num den)
    { ip with x := x, yfactor := yf }
  else
    { ip with x := x }

/-- `Interpolator::Interpolate(y0, y1)`.  The non-linear branch mixes
`s32` and `u32` operands, so it is carried out modulo 2^32 exactly as
the C++ usual arithmetic conversions prescribe; the linear branch is a
64-bit computation whose result is returned as `s32`. -/
def Interpolator.Interpolate (ip : Interpolator) (y0 y1 : Int) : Int :=
  if ip.xdiff = 0 ∨ y0 = y1 then y0
  else if ip.linear = false then
    -- perspective-correct approximate interpolation
    if y0 < y1 then
      s32ofU32 ((u32 y0 + ((u32 (y1 - y0) * ip.yfactor) % 2 ^ 32) >>> ip.shift) % 2 ^ 32)
    else
      s32ofU32 ((u32 y1 +
        ((u32 (y0 - y1) * ((2 ^ ip.shift + 2 ^ 32 - ip.yfactor) % 2 ^ 32)) % 2 ^ 32) >>> ip.shift) % 2 ^ 32)
  else
    -- linear interpolation, with the guessed rounding bias 3<<24
    if y0 < y1 then
      wrap32 (y0 + ((y1 - y0) * ip.x * ip.xrecip + 3 * 2 ^ 24) / 2 ^ 30)
    else
      wrap32 (y1 + ((y0 - y1) * (ip.xdiff - ip.x) * ip.xrecip + 3 * 2 ^ 24) / 2 ^ 30)

/-- The displacement normalisation loop of the Y-direction Z-buffer
path of `Interpolator::InterpolateZ`: halve `disp` until it fits in
10 bits, counting the shifts. -/
def normDisp (disp : Int) (shift : Nat) : Int × Nat :=
  if h : 0x3FF < disp then normDisp (disp / 2) (shift + 1) else (disp, shift)
termination_by disp.toNat
decreasing_by
  omega

/-- `Interpolator::InterpolateZ(z0, z1, wbuffer)`. -/
def Interpolator.InterpolateZ (ip : Interpolator) (z0 z1 : Int) (wbuffer : Bool) : Int :=
  if ip.xdiff = 0 ∨ z0 = z1 then z0
  else if wbuffer then
    if z0 < z1 then
      wrap32 (z0 + ((z1 - z0) * (ip.yfactor : Int)) / 2 ^ ip.shift)
    else
      wrap32 (z1 + ((z0 - z1) * ((2 ^ ip.shift : Int) - (ip.yfactor : Int))) / 2 ^ ip.shift)
  else
    let bdf : Int × Int × Int :=
      if z0 < z1 then (z0, z1 - z0, ip.x) else (z1, z0 - z1, ip.xdiff - ip.x)
    let base := bdf.1
    let disp := bdf.2.1
    let factor := bdf.2.2
    if ip.dir ≠ 0 then
      let ds := normDisp disp 0
      wrap32 (base + ((ds.1 * factor * ip.xrecip_z) / 2 ^ 22) * 2 ^ ds.2)
    else
      wrap32 (base + ((disp / 2 ^ 9) * factor * ip.xrecip_z) / 2 ^ 13)

/-! ### Projection lemmas for the interpolator -/

theorem interp_setup_x0 (dir : Nat) (x0 x1 w0 w1 : Int) :
    (Interpolator.Setup dir x0 x1 w0 w1).x0 = x0 := by
  unfold Interpolator.Setup; split <;> (try split) <;> rfl

theorem interp_setup_xdiff (dir : Nat) (x0 x1 w0 w1 : Int) :
    (Interpolator.Setup dir x0 x1 w0 w1).xdiff = x1 - x0 := by
  unfold Interpolator.Setup; split <;> (try split) <;> rfl

theorem interp_setup_xrecip (dir : Nat) (x0 x1 w0 w1 : Int) :
    (Interpolator.Setup dir x0 x1 w0 w1).xrecip =
      if x1 - x0 ≠ 0 then Int.tdiv (2 ^ 30) (x1 - x0) else 0 := by
  unfold Interpolator.Setup; split <;> (try split) <;> simp_all

theorem interp_setup_linear (dir : Nat) (x0 x1 w0 w1 : Int) :
    (Interpolator.Setup dir x0 x1 w0 w1).linear =
      decide (w0 = w1 ∧ sand w0 (if dir ≠ 0 then 0x7E else 0x7F) = 0 ∧
              sand w1 (if dir ≠ 0 then 0x7E else 0x7F) = 0) := by
  unfold Interpolator.Setup; split <;> (try split) <;> rfl

theorem interp_setX_x (ip : Interpolator) (xin : Int) :
    (ip.SetX xin).x = xin - ip.x0 := by
  unfold Interpolator.SetX; split <;> rfl

theorem interp_setX_x0 (ip : Interpolator) (xin : Int) :
    (ip.SetX xin).x0 = ip.x0 := by
  unfold Interpolator.SetX; split <;> rfl

theorem interp_setX_xdiff (ip : Interpolator) (xin : Int) :
    (ip.SetX xin).xdiff = ip.xdiff := by
  unfold Interpolator.SetX; split <;> rfl

theorem interp_setX_xrecip (ip : Interpolator) (xin : Int) :
    (ip.SetX xin).xrecip = ip.xrecip := by
  unfold Interpolator.SetX; split <;> rfl

theorem interp_setX_linear (ip : Interpolator) (xin : Int) :
    (ip.SetX xin).linear = ip.linear := by
  unfold Interpolator.SetX; split <;> rfl

/-- In linear mode `Interpolate` is the biased linear form. -/
theorem interpolate_of_linear (ip : Interpolator) (h : ip.linear = true) (a b : Int) :
    ip.Interpolate a b =
      if ip.xdiff = 0 ∨ a = b then a
      else if a < b then
        wrap32 (a + ((b - a) * ip.x * ip.xrecip + 3 * 2 ^ 24) / 2 ^ 30)
      else
        wrap32 (b + ((a - b) * (ip.xdiff - ip.x) * ip.xrecip + 3 * 2 ^ 24) / 2 ^ 30) := by
  unfold Interpolator.Interpolate
  rw [h]
  simp

/-! ### Arithmetic facts about the biased linear form -/

theorem lin_floor_nonneg {D c u : Int} (hD : 0 < D) (hc : 0 ≤ c) (hu0 : 0 ≤ u) :
    0 ≤ (c * u * (2 ^ 30 / D) + 3 * 2 ^ 24) / 2 ^ 30 := by
  have hR : (0 : Int) ≤ 2 ^ 30 / D := Int.ediv_nonneg (by norm_num) hD.le
  have : (0 : Int) ≤ c * u * (2 ^ 30 / D) :=
    mul_nonneg (mul_nonneg hc hu0) hR
  exact Int.ediv_nonneg (by omega) (by norm_num)

theorem lin_floor_le {D c u : Int} (hD : 0 < D) (hc : 0 ≤ c) (huD : u ≤ D) :
    (c * u * (2 ^ 30 / D) + 3 * 2 ^ 24) / 2 ^ 30 ≤ c := by
  have hR : (0 : Int) ≤ 2 ^ 30 / D := Int.ediv_nonneg (by norm_num) hD.le
  have h1 : D * (2 ^ 30 / D) ≤ 2 ^ 30 := by
    have hmod := Int.ediv_add_emod (2 ^ 30 : Int) D
    have hm0 : 0 ≤ (2 ^ 30 : Int) % D := Int.emod_nonneg _ (ne_of_gt hD)
    omega
  have h2 : c * u * (2 ^ 30 / D) ≤ c * 2 ^ 30 := by
    have ha : c * u * (2 ^ 30 / D) ≤ c * D * (2 ^ 30 / D) :=
      mul_le_mul_of_nonneg_right (mul_le_mul_of_nonneg_left huD hc) hR
    have hb : c * D * (2 ^ 30 / D) ≤ c * 2 ^ 30 := by
      calc c * D * (2 ^ 30 / D) = c * (D * (2 ^ 30 / D)) := by ring
        _ ≤ c * 2 ^ 30 := mul_le_mul_of_nonneg_left h1 hc
    exact le_trans ha hb
  calc (c * u * (2 ^ 30 / D) + 3 * 2 ^ 24) / 2 ^ 30
      ≤ (3 * 2 ^ 24 + c * 2 ^ 30) / 2 ^ 30 := Int.ediv_le_ediv (by norm_num) (by omega)
    _ = c := by
        rw [Int.add_mul_ediv_right _ _ (by norm_num : (2 ^ 30 : Int) ≠ 0)]
        norm_num

theorem lin_floor_mono {D c u u' : Int} (hD : 0 < D) (hc : 0 ≤ c) (huu : u ≤ u') :
    (c * u * (2 ^ 30 / D) + 3 * 2 ^ 24) / 2 ^ 30 ≤
      (c * u' * (2 ^ 30 / D) + 3 * 2 ^ 24) / 2 ^ 30 := by
  have hR : (0 : Int) ≤ 2 ^ 30 / D := Int.ediv_nonneg (by norm_num) hD.le
  have : c * u * (2 ^ 30 / D) ≤ c * u' * (2 ^ 30 / D) :=
    mul_le_mul_of_nonneg_right (mul_le_mul_of_nonneg_left huu hc) hR
  exact Int.ediv_le_ediv (by norm_num) (by omega)

theorem lin_floor_zero {D c : Int} :
    (c * 0 * (2 ^ 30 / D) + 3 * 2 ^ 24) / 2 ^ 30 = 0 := by
  norm_num

theorem lin_floor_top {D c : Int} (hD : 0 < D) (hc : 0 ≤ c)
    (hbias : c * (2 ^ 30 % D) ≤ 3 * 2 ^ 24) :
    (c * D * (2 ^ 30 / D) + 3 * 2 ^ 24) / 2 ^ 30 = c := by
  have hmod := Int.ediv_add_emod (2 ^ 30 : Int) D
  have hr0 : 0 ≤ (2 ^ 30 : Int) % D := Int.emod_nonneg _ (ne_of_gt hD)
  have hq : c * D * (2 ^ 30 / D) = c * 2 ^ 30 - c * (2 ^ 30 % D) := by
    have hDq : D * (2 ^ 30 / D) = 2 ^ 30 - 2 ^ 30 % D := by omega
    calc c * D * (2 ^ 30 / D) = c * (D * (2 ^ 30 / D)) := by ring
      _ = c * (2 ^ 30 - 2 ^ 30 % D) := by rw [hDq]
      _ = c * 2 ^ 30 - c * (2 ^ 30 % D) := by ring
  have hcr0 : 0 ≤ c * (2 ^ 30 % D) := mul_nonneg hc hr0
  rw [hq]
  have hsplit : c * 2 ^ 30 - c * (2 ^ 30 % D) + 3 * 2 ^ 24 =
      (3 * 2 ^ 24 - c * (2 ^ 30 % D)) + c * 2 ^ 30 := by ring
  rw [hsplit, Int.add_mul_ediv_right _ _ (by norm_num : (2 ^ 30 : Int) ≠ 0)]
  have hz : (3 * 2 ^ 24 - c * (2 ^ 30 % D)) / 2 ^ 30 = 0 :=
    Int.ediv_eq_zero_of_lt (by omega) (by omega)
  omega

/-- Closed form of `Interpolate` after a linear-mode `Setup` and `SetX`. -/
theorem c2core (dir : Nat) (x0 x1 w a b x : Int)
    (hmask : sand w (if dir ≠ 0 then 0x7E else 0x7F) = 0)
    (hlt : x0 < x1) :
    ((Interpolator.Setup dir x0 x1 w w).SetX x).Interpolate a b =
      if a = b then a
      else if a < b then
        wrap32 (a + ((b - a) * (x - x0) * (2 ^ 30 / (x1 - x0)) + 3 * 2 ^ 24) / 2 ^ 30)
      else
        wrap32 (b + ((a - b) * (x1 - x) * (2 ^ 30 / (x1 - x0)) + 3 * 2 ^ 24) / 2 ^ 30) := by
  have hlin : ((Interpolator.Setup dir x0 x1 w w).SetX x).linear = true := by
    rw [interp_setX_linear, interp_setup_linear]
    simp only [hmask]
    simp
  rw [interpolate_of_linear _ hlin a b, interp_setX_xdiff, interp_setup_xdiff,
    interp_setX_x, interp_setup_x0, interp_setX_xrecip, interp_setup_xrecip]
  have hD : x1 - x0 ≠ 0 := by omega
  rw [if_pos hD, Int.tdiv_eq_ediv (by norm_num) (by omega)]
  by_cases hab : a = b
  · simp [hab]
  · rw [if_neg (show ¬(x1 - x0 = 0 ∨ a = b) by omega), if_neg hab]
    have harg : x1 - x0 - (x - x0) = x1 - x := by ring
    rw [harg]

/-- C2, counterexample: with equal masked weights `0x80` along X and
`x0 = 0`, `x1 = 1000`, linear mode is selected, yet `Interpolate(0,
100000)` at `x = x1` returns `99999`, not the right endpoint `100000`:
the rounding bias `3<<24` is smaller than `(b-a) * (2^30 mod xdiff)`. -/
theorem c2_counterexample :
    (Interpolator.Setup 0 0 1000 0x80 0x80).linear = true ∧
    ((Interpolator.Setup 0 0 1000 0x80 0x80).SetX 1000).Interpolate 0 100000 = 99999 := by
  constructor
  · rfl
  · decide

/-- C2 (amended): for an interpolator set up with equal weights `w0 = w1`
whose low-order bits are cleared by the direction mask (`0x7F` along X,
`0x7E` along Y), and additionally `|a-b| * (2^30 mod (x1-x0)) ≤ 3*2^24`
(the rounding bias; automatic e.g. when `x1-x0` divides `2^30`),
`Interpolate(a,b)` returns `a` at `x = x0` and `b` at `x = x1`, and for
every intermediate `x` the result is monotone in `x` and lies within
`[min(a,b), max(a,b)]`.  Without the bias hypothesis the endpoint
values can be off (see the counterexample), but the monotonicity and
range conclusions hold whenever the endpoint ones do. -/
theorem c2_linear_interpolation (dir : Nat) (x0 x1 w a b : Int)
    (hmask : sand w (if dir ≠ 0 then 0x7E else 0x7F) = 0)
    (hlt : x0 < x1)
    (hbias : (max a b - min a b) * (2 ^ 30 % (x1 - x0)) ≤ 3 * 2 ^ 24)
    (ha : -(2 ^ 31) ≤ a) (ha' : a < 2 ^ 31)
    (hb : -(2 ^ 31) ≤ b) (hb' : b < 2 ^ 31) :
    (((Interpolator.Setup dir x0 x1 w w).SetX x0).Interpolate a b = a) ∧
    (((Interpolator.Setup dir x0 x1 w w).SetX x1).Interpolate a b = b) ∧
    (∀ x : Int, x0 ≤ x → x ≤ x1 →
      min a b ≤ ((Interpolator.Setup dir x0 x1 w w).SetX x).Interpolate a b ∧
      ((Interpolator.Setup dir x0 x1 w w).SetX x).Interpolate a b ≤ max a b) ∧
    (∀ x x' : Int, x0 ≤ x → x ≤ x' → x' ≤ x1 →
      (a ≤ b →
        ((Interpolator.Setup dir x0 x1 w w).SetX x).Interpolate a b ≤
          ((Interpolator.Setup dir x0 x1 w w).SetX x').Interpolate a b) ∧
      (b ≤ a →
        ((Interpolator.Setup dir x0 x1 w w).SetX x').Interpolate a b ≤
          ((Interpolator.Setup dir x0 x1 w w).SetX x).Interpolate a b)) := by
  have hD : (0 : Int) < x1 - x0 := by omega
  have hbias1 : a ≤ b → (b - a) * (2 ^ 30 % (x1 - x0)) ≤ 3 * 2 ^ 24 := by
    intro h
    have hmm : max a b - min a b = b - a := by
      rw [max_eq_right h, min_eq_left h]
    rw [hmm] at hbias; exact hbias
  have hbias2 : b ≤ a → (a - b) * (2 ^ 30 % (x1 - x0)) ≤ 3 * 2 ^ 24 := by
    intro h
    have hmm : max a b - min a b = a - b := by
      rw [max_eq_left h, min_eq_right h]
    rw [hmm] at hbias; exact hbias
  refine ⟨?_, ?_, ?_, ?_⟩
  · -- value at x = x0
    rw [c2core dir x0 x1 w a b x0 hmask hlt]
    by_cases hab : a = b
    · rw [if_pos hab]
    · rw [if_neg hab]
      by_cases hab2 : a < b
      · rw [if_pos hab2]
        have h0 : x0 - x0 = (0 : Int) := by ring
        rw [h0, lin_floor_zero, add_zero]
        exact wrap32_eq_self a (by omega) (by omega)
      · rw [if_neg hab2]
        have hc : (0 : Int) ≤ a - b := by omega
        have hx1x0 : x1 - x0 = x1 - x0 := rfl
        rw [lin_floor_top hD hc (hbias2 (by omega))]
        have hba : b + (a - b) = a := by ring
        rw [hba]
        exact wrap32_eq_self a (by omega) (by omega)
  · -- value at x = x1
    rw [c2core dir x0 x1 w a b x1 hmask hlt]
    by_cases hab : a = b
    · rw [if_pos hab]; exact hab
    · rw [if_neg hab]
      by_cases hab2 : a < b
      · rw [if_pos hab2]
        have hc : (0 : Int) ≤ b - a := by omega
        rw [lin_floor_top hD hc (hbias1 (by omega))]
        have hba : a + (b - a) = b := by ring
        rw [hba]
        exact wrap32_eq_self b (by omega) (by omega)
      · rw [if_neg hab2]
        have h0 : x1 - x1 = (0 : Int) := by ring
        rw [h0, lin_floor_zero, add_zero]
        exact wrap32_eq_self b (by omega) (by omega)
  · -- range
    intro x hx0 hx1
    rw [c2core dir x0 x1 w a b x hmask hlt]
    by_cases hab : a = b
    · rw [if_pos hab]; constructor
      · exact min_le_left a b
      · exact le_max_left a b
    · rw [if_neg hab]
      by_cases hab2 : a < b
      · rw [if_pos hab2]
        have hc : (0 : Int) ≤ b - a := by omega
        have hlo := lin_floor_nonneg (D := x1 - x0) (c := b - a) (u := x - x0) hD hc (by omega)
        have hhi := lin_floor_le (D := x1 - x0) (c := b - a) (u := x - x0) hD hc (by omega)
        have hw := wrap32_eq_self
          (a + ((b - a) * (x - x0) * (2 ^ 30 / (x1 - x0)) + 3 * 2 ^ 24) / 2 ^ 30)
          (by omega) (by omega)
        rw [hw]
        constructor
        · rw [min_eq_left (by omega : a ≤ b)]; omega
        · rw [max_eq_right (by omega : a ≤ b)]; omega
      · rw [if_neg hab2]
        have hc : (0 : Int) ≤ a - b := by omega
        have hlo := lin_floor_nonneg (D := x1 - x0) (c := a - b) (u := x1 - x) hD hc (by omega)
        have hhi := lin_floor_le (D := x1 - x0) (c := a - b) (u := x1 - x) hD hc (by omega)
        have hw := wrap32_eq_self
          (b + ((a - b) * (x1 - x) * (2 ^ 30 / (x1 - x0)) + 3 * 2 ^ 24) / 2 ^ 30)
          (by omega) (by omega)
        rw [hw]
        constructor
        · rw [min_eq_right (by omega : b ≤ a)]; omega
        · rw [max_eq_left (by omega : b ≤ a)]; omega
  · -- monotonicity
    intro x x' hx0 hxx hx1
    rw [c2core dir x0 x1 w a b x hmask hlt, c2core dir x0 x1 w a b x' hmask hlt]
    constructor
    · intro hab
      by_cases habe : a = b
      · simp [habe]
      · have hab2 : a < b := by omega
        rw [if_neg habe, if_pos hab2, if_neg habe, if_pos hab2]
        have hc : (0 : Int) ≤ b - a := by omega
        have hmono := @lin_floor_mono (x1 - x0) (b - a) (x - x0) (x' - x0) hD hc (by omega)
        have hlo := lin_floor_nonneg (D := x1 - x0) (c := b - a) (u := x - x0) hD hc (by omega)
        have hhi := lin_floor_le (D := x1 - x0) (c := b - a) (u := x - x0) hD hc (by omega)
        have hlo' := lin_floor_nonneg (D := x1 - x0) (c := b - a) (u := x' - x0) hD hc (by omega)
        have hhi' := lin_floor_le (D := x1 - x0) (c := b - a) (u := x' - x0) hD hc (by omega)
        have hw := wrap32_eq_self
          (a + ((b - a) * (x - x0) * (2 ^ 30 / (x1 - x0)) + 3 * 2 ^ 24) / 2 ^ 30)
          (by omega) (by omega)
        have hw' := wrap32_eq_self
          (a + ((b - a) * (x' - x0) * (2 ^ 30 / (x1 - x0)) + 3 * 2 ^ 24) / 2 ^ 30)
          (by omega) (by omega)
        rw [hw, hw']
        omega
    · intro hab
      by_cases habe : a = b
      · simp [habe]
      · have hab2 : ¬a < b := by omega
        rw [if_neg habe, if_neg hab2, if_neg habe, if_neg hab2]
        have hc : (0 : Int) ≤ a - b := by omega
        have hmono := @lin_floor_mono (x1 - x0) (a - b) (x1 - x') (x1 - x) hD hc (by omega)
        have hlo := lin_floor_nonneg (D := x1 - x0) (c := a - b) (u := x1 - x) hD hc (by omega)
        have hhi := lin_floor_le (D := x1 - x0) (c := a - b) (u := x1 - x) hD hc (by omega)
        have hlo' := lin_floor_nonneg (D := x1 - x0) (c := a - b) (u := x1 - x') hD hc (by omega)
        have hhi' := lin_floor_le (D := x1 - x0) (c := a - b) (u := x1 - x') hD hc (by omega)
        have hw := wrap32_eq_self
          (b + ((a - b) * (x1 - x) * (2 ^ 30 / (x1 - x0)) + 3 * 2 ^ 24) / 2 ^ 30)
          (by omega) (by omega)
        have hw' := wrap32_eq_self
          (b + ((a - b) * (x1 - x') * (2 ^ 30 / (x1 - x0)) + 3 * 2 ^ 24) / 2 ^ 30)
          (by omega) (by omega)
        rw [hw, hw']
        omega

/-- Witness for `c2_linear_interpolation` at `dir = 0`, `x0 = 0`,
`x1 = 4`, `w = 0x80`, `a = 0`, `b = 100`: `x1 - x0` divides `2^30`, so
the bias hypothesis holds and the endpoints are exact. -/
theorem c2_witness :
    (((Interpolator.Setup 0 0 4 0x80 0x80).SetX 0).Interpolate 0 100 = 0) ∧
    (((Interpolator.Setup 0 0 4 0x80 0x80).SetX 4).Interpolate 0 100 = 100) :=
  ⟨(c2_linear_interpolation 0 0 4 0x80 0 100 (by decide) (by decide) (by decide)
      (by decide) (by decide) (by decide) (by decide)).1,
   (c2_linear_interpolation 0 0 4 0x80 0 100 (by decide) (by decide) (by decide)
      (by decide) (by decide) (by decide) (by decide)).2.1⟩

/-!  ## The edge slope

`Slope<side>` from the source (`side = 0` the left edge, `side = 1` the
right edge).  The template parameter is stored as the field `side`. -/

structure Slope where
  side : Bool
  x0 : Int := 0
  xmin : Int := 0
  xmax : Int := 0
  xlen : Int := 0
  ylen : Int := 0
  dx : Int := 0
  y : Int := 0
  Increment : Int := 0
  Negative : Bool := false
  XMajor : Bool := false
  Interp : Interpolator := {}
  xcov_incr : Int := 0
deriving Repr, DecidableEq

/-- The `xmin`/`xmax`/`Negative` selection at the top of `Slope::Setup`. -/
def slopeMMN (side : Bool) (x0 x1 : Int) : Int × Int × Bool :=
  if x0 < x1 then (x0, x1 - 1, false)
  else if x1 < x0 then (x1, x0 - 1, true)
  else if side then (x0 - 1, x0 - 1, false) else (x0, x0, false)

/-- The increment computation of `Slope::Setup`: an 18-bit-fraction
slope, built from the reciprocal of `ylen` and made nonnegative. -/
def slopeIncrement (x0 x1 ylen xlen : Int) : Int :=
  if ylen = 0 then 0
  else if ylen = xlen then 0x40000
  else
    let yrecip := Int.tdiv (2 ^ 18) ylen
    let inc := (x1 - x0) * yrecip
    if inc < 0 then -inc else inc

/-- The initial sub-pixel offset table of `Slope::Setup`. -/
def slopeDxInit (side xMajor negative : Bool) (increment : Int) : Int :=
  if side then
    if xMajor then (if negative then 0x20000 + 0x40000 else increment - 0x20000)
    else if increment ≠ 0 then (if negative then 0x40000 else 0)
    else -0x40000
  else
    if xMajor then (if negative then increment - 0x20000 + 0x40000 else 0x20000)
    else if increment ≠ 0 then (if negative then 0x40000 else 0)
    else 0

/-- `Slope::Setup(x0, x1, y0, y1, w0, w1, y)`.  The seeded interpolator
runs along the major axis; an X-major right edge uses `(x0-1, x1-1)`. -/
def Slope.Setup (side : Bool) (x0 x1 y0 y1 w0 w1 y : Int) : Slope :=
  let mmn := slopeMMN side x0 x1
  let xlen := mmn.2.1 + 1 - mmn.1
  let ylen := y1 - y0
  let increment := slopeIncrement x0 x1 ylen xlen
  let xMajor := decide (0x40000 < increment)
  let dx := slopeDxInit side xMajor mmn.2.2 increment + (y - y0) * increment
  let xv :=
    let ret := if mmn.2.2 then x0 - dx / 2 ^ 18 else x0 + dx / 2 ^ 18
    if ret < mmn.1 then mmn.1 else if mmn.2.1 < ret then mmn.2.1 else ret
  let interp :=
    if xMajor then
      (Interpolator.Setup 1 (if side then x0 - 1 else x0)
        (if side then x1 - 1 else x1) w0 w1).SetX xv
    else (Interpolator.Setup 1 y0 y1 w0 w1).SetX y
  let xcov := if xMajor then Int.tdiv (ylen * 2 ^ 10) xlen else 0
  { side := side, x0 := x0, xmin := mmn.1, xmax := mmn.2.1, xlen := xlen,
    ylen := ylen, dx := dx, y := y, Increment := increment,
    Negative := mmn.2.2, XMajor := xMajor, Interp := interp, xcov_incr := xcov }

/-- `Slope::SetupDummy(x0)`: degenerate a zero-height polygon edge to a
single row. -/
def Slope.SetupDummy (side : Bool) (x0in : Int) : Slope :=
  let dx : Int := if side then -0x40000 else 0
  let x0 := if side then x0in - 1 else x0in
  { side := side, dx := dx, x0 := x0, xmin := x0, xmax := x0,
    Increment := 0, XMajor := false, Negative := false,
    Interp := (Interpolator.Setup 1 0 0 0 0).SetX 0,
    xcov_incr := 0, xlen := 0, ylen := 0, y := 0 }

/-- `Slope::XVal()`: current X, clamped to `[xmin, xmax]`. -/
def Slope.XVal (s : Slope) : Int :=
  let ret := if s.Negative then s.x0 - s.dx / 2 ^ 18 else s.x0 + s.dx / 2 ^ 18
  if ret < s.xmin then s.xmin else if s.xmax < ret then s.xmax else ret

/-- The clamp applied by `Slope::XVal` to a candidate X value. -/
def Slope.clampX (s : Slope) (c : Int) : Int :=
  if c < s.xmin then s.xmin else if s.xmax < c then s.xmax else c

/-- `Slope::Step()`: advance one scanline and reseed the inner
interpolator (at the new X when X-major, at the new Y otherwise). -/
def Slope.Step (s : Slope) : Slope :=
  let dx := s.dx + s.Increment
  let y := s.y + 1
  let s2 : Slope := { s with dx := dx, y := y }
  let x := s2.XVal
  { s2 with Interp := if s.XMajor then s.Interp.SetX x else s.Interp.SetX y }

/-- `Step` iterated `n` times. -/
def Slope.stepN : Slope → Nat → Slope
  | s, 0 => s
  | s, n + 1 => (Slope.stepN s n).Step

/-- `Slope::EdgeParams_XMajor`: pixel run length and the packed AA
coverage descriptor for an X-major edge. -/
def Slope.EdgeParams_XMajor (s : Slope) : Int × Int :=
  let len :=
    if s.side ≠ s.Negative then s.dx / 2 ^ 18 - (s.dx - s.Increment) / 2 ^ 18
    else (s.dx + s.Increment) / 2 ^ 18 - s.dx / 2 ^ 18
  let startx0 := s.dx / 2 ^ 18
  let startx1 := if s.Negative then s.xlen - startx0 else startx0
  let startx := if s.side then startx1 - len + 1 else startx1
  let startcov := Int.tdiv ((startx * 2 ^ 10 + 0x1FF) * s.ylen) s.xlen
  (len, s32ofU32 (0x80000000 ||| (sand startcov 0x3FF <<< 12) ||| sand s.xcov_incr 0x3FF))

/-- `Slope::EdgeParams_YMajor`: run length 1 and a direct 5-bit
coverage for a Y-major edge. -/
def Slope.EdgeParams_YMajor (s : Slope) : Int × Int :=
  if s.Increment = 0 then (1, 31)
  else
    let cov0 := (s.dx / 2 ^ 9 + s.Increment / 2 ^ 10) / 2 ^ 4
    let cov1 := if cov0 / 2 ^ 5 ≠ s.dx / 2 ^ 18 then (31 : Int) else cov0
    let cov2 : Int := (sand cov1 0x1F : Nat)
    let cov3 := if ¬(s.side ≠ s.Negative) then 0x1F - cov2 else cov2
    (1, cov3)

/-- `Slope::EdgeParams`: dispatch on `XMajor`. -/
def Slope.EdgeParams (s : Slope) : Int × Int :=
  if s.XMajor then s.EdgeParams_XMajor else s.EdgeParams_YMajor

/-! ### Invariance of the slope fields under stepping -/

theorem step_fields (s : Slope) :
    s.Step.dx = s.dx + s.Increment ∧ s.Step.x0 = s.x0 ∧ s.Step.xmin = s.xmin ∧
    s.Step.xmax = s.xmax ∧ s.Step.Negative = s.Negative ∧
    s.Step.Increment = s.Increment :=
  ⟨rfl, rfl, rfl, rfl, rfl, rfl⟩

theorem stepN_fields (s : Slope) (n : Nat) :
    (s.stepN n).dx = s.dx + n * s.Increment ∧ (s.stepN n).x0 = s.x0 ∧
    (s.stepN n).xmin = s.xmin ∧ (s.stepN n).xmax = s.xmax ∧
    (s.stepN n).Negative = s.Negative ∧ (s.stepN n).Increment = s.Increment := by
  induction n with
  | zero => refine ⟨by simp [Slope.stepN], rfl, rfl, rfl, rfl, rfl⟩
  | succ n ih =>
    obtain ⟨hdx, hx0, hxmin, hxmax, hneg, hinc⟩ := ih
    refine ⟨?_, ?_, ?_, ?_, ?_, ?_⟩
    · show ((s.stepN n).Step).dx = _
      rw [(step_fields (s.stepN n)).1, hdx, hinc]
      push_cast
      ring
    · show ((s.stepN n).Step).x0 = _
      rw [(step_fields (s.stepN n)).2.1, hx0]
    · show ((s.stepN n).Step).xmin = _
      rw [(step_fields (s.stepN n)).2.2.1, hxmin]
    · show ((s.stepN n).Step).xmax = _
      rw [(step_fields (s.stepN n)).2.2.2.1, hxmax]
    · show ((s.stepN n).Step).Negative = _
      rw [(step_fields (s.stepN n)).2.2.2.2.1, hneg]
    · show ((s.stepN n).Step).Increment = _
      rw [(step_fields (s.stepN n)).2.2.2.2.2, hinc]

/-- Division bounds for the accumulated slope increment: over `ylen`
steps the 18-bit-fraction increment advances X by `xlen` or `xlen - 1`
pixels, provided the edge is at most one pixel per line (`Y-major`)
and the product `xlen * ylen` does not exceed the reciprocal scale. -/
theorem slope_accum_div (L ylen : Int) (hL : 0 < L) (hy : 0 < ylen)
    (harea : L * ylen ≤ 2 ^ 18) :
    L - 1 ≤ ylen * (if ylen = L then (0x40000 : Int) else L * (2 ^ 18 / ylen)) / 2 ^ 18 ∧
    ylen * (if ylen = L then (0x40000 : Int) else L * (2 ^ 18 / ylen)) / 2 ^ 18 ≤ L := by
  by_cases hyl : ylen = L
  · rw [if_pos hyl, hyl]
    have hv : L * (0x40000 : Int) = L * 2 ^ 18 := by norm_num
    rw [hv, Int.mul_ediv_cancel L (by norm_num : (2 ^ 18 : Int) ≠ 0)]
    omega
  · rw [if_neg hyl]
    have hq := Int.ediv_add_emod (2 ^ 18 : Int) ylen
    have hm0 : 0 ≤ (2 ^ 18 : Int) % ylen := Int.emod_nonneg _ (ne_of_gt hy)
    have hm1 : (2 ^ 18 : Int) % ylen < ylen := Int.emod_lt_of_pos _ hy
    have hA1 : 2 ^ 18 - ylen < ylen * (2 ^ 18 / ylen) := by omega
    have hA2 : ylen * (2 ^ 18 / ylen) ≤ 2 ^ 18 := by omega
    have hS : ylen * (L * (2 ^ 18 / ylen)) = L * (ylen * (2 ^ 18 / ylen)) := by ring
    rw [hS]
    constructor
    · rw [Int.le_ediv_iff_mul_le (by norm_num : (0 : Int) < 2 ^ 18)]
      have h1 : L * (2 ^ 18 - ylen + 1) ≤ L * (ylen * (2 ^ 18 / ylen)) :=
        mul_le_mul_of_nonneg_left (by omega) hL.le
      have h2 : L * (2 ^ 18 - ylen + 1) = L * 2 ^ 18 - L * ylen + L := by ring
      have h3 : (L - 1) * 2 ^ 18 = L * 2 ^ 18 - 2 ^ 18 := by ring
      omega
    · have h1 : L * (ylen * (2 ^ 18 / ylen)) ≤ L * 2 ^ 18 :=
        mul_le_mul_of_nonneg_left hA2 hL.le
      calc L * (ylen * (2 ^ 18 / ylen)) / 2 ^ 18
          ≤ L * 2 ^ 18 / 2 ^ 18 := Int.ediv_le_ediv (by norm_num) h1
        _ = L := Int.mul_ediv_cancel L (by norm_num : (2 ^ 18 : Int) ≠ 0)

theorem setup_fields (side : Bool) (x0 x1 y0 y1 w0 w1 y : Int) :
    (Slope.Setup side x0 x1 y0 y1 w0 w1 y).x0 = x0 ∧
    (Slope.Setup side x0 x1 y0 y1 w0 w1 y).xmin = (slopeMMN side x0 x1).1 ∧
    (Slope.Setup side x0 x1 y0 y1 w0 w1 y).xmax = (slopeMMN side x0 x1).2.1 ∧
    (Slope.Setup side x0 x1 y0 y1 w0 w1 y).Negative = (slopeMMN side x0 x1).2.2 ∧
    (Slope.Setup side x0 x1 y0 y1 w0 w1 y).xlen =
      (slopeMMN side x0 x1).2.1 + 1 - (slopeMMN side x0 x1).1 ∧
    (Slope.Setup side x0 x1 y0 y1 w0 w1 y).Increment =
      slopeIncrement x0 x1 (y1 - y0)
        ((slopeMMN side x0 x1).2.1 + 1 - (slopeMMN side x0 x1).1) ∧
    (Slope.Setup side x0 x1 y0 y1 w0 w1 y).XMajor =
      decide (0x40000 < slopeIncrement x0 x1 (y1 - y0)
        ((slopeMMN side x0 x1).2.1 + 1 - (slopeMMN side x0 x1).1)) ∧
    (Slope.Setup side x0 x1 y0 y1 w0 w1 y).dx =
      slopeDxInit side
        (decide (0x40000 < slopeIncrement x0 x1 (y1 - y0)
          ((slopeMMN side x0 x1).2.1 + 1 - (slopeMMN side x0 x1).1)))
        (slopeMMN side x0 x1).2.2
        (slopeIncrement x0 x1 (y1 - y0)
          ((slopeMMN side x0 x1).2.1 + 1 - (slopeMMN side x0 x1).1)) +
      (y - y0) * slopeIncrement x0 x1 (y1 - y0)
        ((slopeMMN side x0 x1).2.1 + 1 - (slopeMMN side x0 x1).1) :=
  ⟨rfl, rfl, rfl, rfl, rfl, rfl, rfl, rfl⟩

theorem slopeDxInit_ymajor (side neg : Bool) (inc : Int) (h : inc ≠ 0) :
    slopeDxInit side false neg inc = if neg then 0x40000 else 0 := by
  cases side <;> cases neg <;> simp [slopeDxInit, h]

/-- C1, counterexample: `Slope::Setup(10, 0, 0, 5, 7, 7, y = 0)` yields
an X-major negative left edge whose initial `XVal()` is `8`, which is
neither `x0 = 10` nor the clamp of `x0` to `[xmin, xmax] = [0, 9]`.
The X-major initial sub-pixel offset shifts the starting X by more
than the clamp can account for. -/
theorem c1_counterexample :
    (Slope.Setup false 10 0 0 5 7 7 0).XVal = 8 ∧
    (Slope.Setup false 10 0 0 5 7 7 0).XVal ≠ 10 ∧
    (Slope.Setup false 10 0 0 5 7 7 0).XVal ≠
      (Slope.Setup false 10 0 0 5 7 7 0).clampX 10 := by
  refine ⟨by decide, by decide, by decide⟩

/-- C1 (amended): for every slope configured by
`Setup(x0, x1, y0, y1, w0, w1, y)` with `y = y0`, `ylen = y1 - y0 > 0`
and `x0 ≠ x1`, **provided the slope is not X-major** and
`xlen * ylen ≤ 2^18` (the reciprocal scale), the initial `XVal()`
equals `x0` clamped to `[xmin, xmax]`, and after calling `Step()`
exactly `ylen` times `XVal()` equals `x1` clamped to `[xmin, xmax]`.
For X-major slopes the initial value can differ from `x0` by more than
the clamp (see the counterexample). -/
theorem c1_slope_walk (side : Bool) (x0 x1 y0 y1 w0 w1 : Int)
    (hne : x0 ≠ x1) (hy : y0 < y1)
    (hym : (Slope.Setup side x0 x1 y0 y1 w0 w1 y0).XMajor = false)
    (harea : (Slope.Setup side x0 x1 y0 y1 w0 w1 y0).xlen * (y1 - y0) ≤ 2 ^ 18) :
    (Slope.Setup side x0 x1 y0 y1 w0 w1 y0).XVal =
      (Slope.Setup side x0 x1 y0 y1 w0 w1 y0).clampX x0 ∧
    ((Slope.Setup side x0 x1 y0 y1 w0 w1 y0).stepN (y1 - y0).toNat).XVal =
      (Slope.Setup side x0 x1 y0 y1 w0 w1 y0).clampX x1 := by
  obtain ⟨hfx0, hfxmin, hfxmax, hfneg, hfxlen, hfinc, hfxm, hfdx⟩ :=
    setup_fields side x0 x1 y0 y1 w0 w1 y0
  obtain ⟨hsdx, hsx0, hsxmin, hsxmax, hsneg, _⟩ :=
    stepN_fields (Slope.Setup side x0 x1 y0 y1 w0 w1 y0) (y1 - y0).toNat
  have hcast : (((y1 - y0).toNat : Int)) = y1 - y0 := by omega
  rcases lt_or_gt_of_ne hne with hpos | hneg2
  · -- x0 < x1
    have hmmn : slopeMMN side x0 x1 = (x0, x1 - 1, false) := by
      unfold slopeMMN; rw [if_pos hpos]
    rw [hmmn] at hfxmin hfxmax hfneg hfxlen hfinc hfxm hfdx
    simp only [] at hfxmin hfxmax hfneg hfxlen hfinc hfxm hfdx
    have hxl : x1 - 1 + 1 - x0 = x1 - x0 := by ring
    rw [hxl] at hfxlen hfinc hfxm hfdx
    have hylen0 : y1 - y0 ≠ 0 := by omega
    have hq1 : (1 : Int) ≤ 2 ^ 18 / (y1 - y0) := by
      rw [Int.le_ediv_iff_mul_le (by omega : (0 : Int) < y1 - y0)]
      have : y1 - y0 ≤ (x1 - x0) * (y1 - y0) :=
        le_mul_of_one_le_left (by omega) (by omega)
      rw [hfxlen] at harea
      omega
    have hincv : slopeIncrement x0 x1 (y1 - y0) (x1 - x0) =
        if y1 - y0 = x1 - x0 then (0x40000 : Int)
        else (x1 - x0) * (2 ^ 18 / (y1 - y0)) := by
      unfold slopeIncrement
      rw [if_neg hylen0]
      by_cases hyx : y1 - y0 = x1 - x0
      · rw [if_pos hyx, if_pos hyx]
      · rw [if_neg hyx, if_neg hyx,
          Int.tdiv_eq_ediv (by norm_num) (by omega)]
        have hnn : (0 : Int) ≤ (x1 - x0) * (2 ^ 18 / (y1 - y0)) :=
          mul_nonneg (by omega) (by omega)
        rw [if_neg (by omega : ¬(x1 - x0) * (2 ^ 18 / (y1 - y0)) < 0)]
    have hincnz : slopeIncrement x0 x1 (y1 - y0) (x1 - x0) ≠ 0 := by
      rw [hincv]
      by_cases hyx : y1 - y0 = x1 - x0
      · rw [if_pos hyx]; norm_num
      · rw [if_neg hyx]
        have h1 : (1 : Int) ≤ x1 - x0 := by omega
        nlinarith [hq1]
    have hxmf : decide (0x40000 < slopeIncrement x0 x1 (y1 - y0) (x1 - x0)) = false := by
      rw [← hfxm]; exact hym
    have hdxv : (Slope.Setup side x0 x1 y0 y1 w0 w1 y0).dx = 0 := by
      rw [hfdx, hxmf, slopeDxInit_ymajor side false _ hincnz]
      simp
    have harea2 : (x1 - x0) * (y1 - y0) ≤ 2 ^ 18 := by rw [hfxlen] at harea; exact harea
    have hacc := slope_accum_div (x1 - x0) (y1 - y0) (by omega) (by omega) harea2
    rw [← hincv] at hacc
    constructor
    · simp only [Slope.XVal, Slope.clampX]
      rw [hfneg, hdxv, hfx0, hfxmin, hfxmax]
      simp only [Bool.false_eq_true, if_false]
      split_ifs <;> omega
    · simp only [Slope.XVal, Slope.clampX]
      rw [hsneg, hfneg, hsx0, hfx0, hsxmin, hfxmin, hsxmax, hfxmax, hsdx, hdxv,
        hcast, hfinc]
      simp only [Bool.false_eq_true, if_false, zero_add]
      split_ifs <;> omega
  · -- x1 < x0
    have hmmn : slopeMMN side x0 x1 = (x1, x0 - 1, true) := by
      unfold slopeMMN
      rw [if_neg (by omega : ¬x0 < x1), if_pos hneg2]
    rw [hmmn] at hfxmin hfxmax hfneg hfxlen hfinc hfxm hfdx
    simp only [] at hfxmin hfxmax hfneg hfxlen hfinc hfxm hfdx
    have hxl : x0 - 1 + 1 - x1 = x0 - x1 := by ring
    rw [hxl] at hfxlen hfinc hfxm hfdx
    have hylen0 : y1 - y0 ≠ 0 := by omega
    have hq1 : (1 : Int) ≤ 2 ^ 18 / (y1 - y0) := by
      rw [Int.le_ediv_iff_mul_le (by omega : (0 : Int) < y1 - y0)]
      have : y1 - y0 ≤ (x0 - x1) * (y1 - y0) :=
        le_mul_of_one_le_left (by omega) (by omega)
      rw [hfxlen] at harea
      omega
    have hincv : slopeIncrement x0 x1 (y1 - y0) (x0 - x1) =
        if y1 - y0 = x0 - x1 then (0x40000 : Int)
        else (x0 - x1) * (2 ^ 18 / (y1 - y0)) := by
      unfold slopeIncrement
      rw [if_neg hylen0]
      by_cases hyx : y1 - y0 = x0 - x1
      · rw [if_pos hyx, if_pos hyx]
      · rw [if_neg hyx, if_neg hyx,
          Int.tdiv_eq_ediv (by norm_num) (by omega)]
        have hpp : (0 : Int) < (x0 - x1) * (2 ^ 18 / (y1 - y0)) := by
          have h1 : (1 : Int) ≤ x0 - x1 := by omega
          nlinarith [hq1]
        rw [if_pos (by nlinarith [hq1, hpp] : (x1 - x0) * (2 ^ 18 / (y1 - y0)) < 0)]
        ring
    have hincnz : slopeIncrement x0 x1 (y1 - y0) (x0 - x1) ≠ 0 := by
      rw [hincv]
      by_cases hyx : y1 - y0 = x0 - x1
      · rw [if_pos hyx]; norm_num
      · rw [if_neg hyx]
        have h1 : (1 : Int) ≤ x0 - x1 := by omega
        nlinarith [hq1]
    have hxmf : decide (0x40000 < slopeIncrement x0 x1 (y1 - y0) (x0 - x1)) = false := by
      rw [← hfxm]; exact hym
    have hdxv : (Slope.Setup side x0 x1 y0 y1 w0 w1 y0).dx = 0x40000 := by
      rw [hfdx, hxmf, slopeDxInit_ymajor side true _ hincnz]
      simp
    have harea2 : (x0 - x1) * (y1 - y0) ≤ 2 ^ 18 := by rw [hfxlen] at harea; exact harea
    have hacc := slope_accum_div (x0 - x1) (y1 - y0) (by omega) (by omega) harea2
    rw [← hincv] at hacc
    have hsplit : ∀ S : Int, ((0x40000 : Int) + S) / 2 ^ 18 = S / 2 ^ 18 + 1 := by
      intro S
      have h1 : (0x40000 : Int) + S = S + 1 * 2 ^ 18 := by ring
      rw [h1, Int.add_mul_ediv_right _ _ (by norm_num : (2 ^ 18 : Int) ≠ 0)]
    constructor
    · simp only [Slope.XVal, Slope.clampX]
      rw [hfneg, hdxv, hfx0, hfxmin, hfxmax]
      simp only [eq_self_iff_true, if_true]
      split_ifs <;> omega
    · simp only [Slope.XVal, Slope.clampX]
      rw [hsneg, hfneg, hsx0, hfx0, hsxmin, hfxmin, hsxmax, hfxmax, hsdx, hdxv,
        hcast, hfinc, hsplit]
      simp only [eq_self_iff_true, if_true]
      split_ifs <;> omega

/-- Witness for `c1_slope_walk`: the left edge from `(0,0)` to `(2,4)`
starts at `XVal() = 0 = x0` and after 4 steps reaches
`XVal() = 1 = clamp(x1)`. -/
theorem c1_witness :
    (Slope.Setup false 0 2 0 4 5 5 0).XVal =
      (Slope.Setup false 0 2 0 4 5 5 0).clampX 0 ∧
    ((Slope.Setup false 0 2 0 4 5 5 0).stepN ((4 : Int) - 0).toNat).XVal =
      (Slope.Setup false 0 2 0 4 5 5 0).clampX 2 :=
  c1_slope_walk false 0 2 0 4 5 5 (by decide) (by decide) (by decide) (by decide)

/-!  ## Depth tests -/

/-- `DepthTest_Equal_Z`: equality with tolerance 0x200, implemented by
an unsigned comparison of the shifted difference. -/
def DepthTest_Equal_Z (dstz z : Int) (dstattr : Nat) : Bool :=
  decide (u32 (dstz - z + 0x200) ≤ 0x400)

/-- `DepthTest_Equal_W`: equality with tolerance 0xFF. -/
def DepthTest_Equal_W (dstz z : Int) (dstattr : Nat) : Bool :=
  decide (u32 (dstz - z + 0xFF) ≤ 0x1FE)

/-- `DepthTest_LessThan`. -/
def DepthTest_LessThan (dstz z : Int) (dstattr : Nat) : Bool :=
  decide (z < dstz)

/-- `DepthTest_LessThan_FrontFacing`: less-or-equal when the
destination pixel is opaque and back-facing, else less-than. -/
def DepthTest_LessThan_FrontFacing (dstz z : Int) (dstattr : Nat) : Bool :=
  if dstattr &&& 0x00400010 = 0x00000010 then decide (z ≤ dstz)
  else decide (z < dstz)

/-- The per-polygon depth-test selection shared by
`RenderPolygonScanline` and `RenderShadowMaskScanline`. -/
def polygonDepthTest (attr : Nat) (wbuffer facingView : Bool) :
    Int → Int → Nat → Bool :=
  if attr &&& (1 <<< 14) ≠ 0 then
    if wbuffer then DepthTest_Equal_W else DepthTest_Equal_Z
  else if facingView then DepthTest_LessThan_FrontFacing
  else DepthTest_LessThan

theorem and_mask_400010 (x : Nat) :
    (x &&& 0x400010 = 0x10) ↔ (x.testBit 22 = false ∧ x.testBit 4 = true) := by
  have h1 : (0x400010 : Nat) = 2 ^ 22 ||| 2 ^ 4 := by decide
  rw [h1, Nat.and_or_distrib_left, Nat.and_two_pow, Nat.and_two_pow]
  cases h22 : x.testBit 22 <;> cases h4 : x.testBit 4 <;> simp

/-- C3: the per-polygon depth predicate.  When polygon attribute bit 14
is set it is an equality test accepting differences within 0x200 under
Z-buffering and within 0xFF under W-buffering; otherwise it is a
less-than test, and for a front-facing polygon it additionally passes
on equality exactly when the destination is opaque (bit 22 clear) and
back-facing (bit 4 set). -/
theorem c3_depth_predicate (attr : Nat) (wbuffer facingView : Bool)
    (dstz z : Int) (dstattr : Nat)
    (hdz0 : 0 ≤ dstz) (hdz1 : dstz < 2 ^ 24) (hz0 : 0 ≤ z) (hz1 : z < 2 ^ 24) :
    (attr &&& (1 <<< 14) ≠ 0 → wbuffer = false →
      (polygonDepthTest attr wbuffer facingView dstz z dstattr = true ↔
        -0x200 ≤ dstz - z ∧ dstz - z ≤ 0x200)) ∧
    (attr &&& (1 <<< 14) ≠ 0 → wbuffer = true →
      (polygonDepthTest attr wbuffer facingView dstz z dstattr = true ↔
        -0xFF ≤ dstz - z ∧ dstz - z ≤ 0xFF)) ∧
    (attr &&& (1 <<< 14) = 0 → facingView = true →
      (polygonDepthTest attr wbuffer facingView dstz z dstattr = true ↔
        (z < dstz ∨ (z = dstz ∧ dstattr.testBit 22 = false ∧
          dstattr.testBit 4 = true)))) ∧
    (attr &&& (1 <<< 14) = 0 → facingView = false →
      (polygonDepthTest attr wbuffer facingView dstz z dstattr = true ↔
        z < dstz)) := by
  refine ⟨?_, ?_, ?_, ?_⟩
  · intro hbit hw
    rw [polygonDepthTest, if_pos hbit, hw]
    simp only [Bool.false_eq_true, if_false]
    unfold DepthTest_Equal_Z u32
    simp only [decide_eq_true_eq]
    omega
  · intro hbit hw
    rw [polygonDepthTest, if_pos hbit, hw]
    simp only [if_true]
    unfold DepthTest_Equal_W u32
    simp only [decide_eq_true_eq]
    omega
  · intro hbit hf
    rw [polygonDepthTest, if_neg (by omega : ¬attr &&& (1 <<< 14) ≠ 0), hf]
    simp only [if_true]
    unfold DepthTest_LessThan_FrontFacing
    by_cases hmask : dstattr &&& 0x400010 = 0x10
    · rw [if_pos hmask]
      simp only [decide_eq_true_eq]
      rw [and_mask_400010] at hmask
      constructor
      · intro hle
        rcases lt_or_eq_of_le hle with hlt | heq
        · exact Or.inl hlt
        · exact Or.inr ⟨heq, hmask⟩
      · intro hor
        rcases hor with hlt | ⟨heq, _⟩
        · exact le_of_lt hlt
        · exact le_of_eq heq
    · rw [if_neg hmask]
      simp only [decide_eq_true_eq]
      rw [and_mask_400010] at hmask
      constructor
      · intro hlt; exact Or.inl hlt
      · intro hor
        rcases hor with hlt | ⟨heq, hbits⟩
        · exact hlt
        · exact absurd hbits hmask
  · intro hbit hf
    rw [polygonDepthTest, if_neg (by omega : ¬attr &&& (1 <<< 14) ≠ 0), hf]
    simp only [Bool.false_eq_true, if_false]
    unfold DepthTest_LessThan
    simp only [decide_eq_true_eq]

/-- Witness for `c3_depth_predicate`: the front-facing less-than test
on equal depths over an opaque back-facing destination passes. -/
theorem c3_witness :
    polygonDepthTest 0 false true 100 100 0x10 = true ↔
      ((100 : Int) < 100 ∨ ((100 : Int) = 100 ∧
        (0x10 : Nat).testBit 22 = false ∧ (0x10 : Nat).testBit 4 = true)) :=
  (c3_depth_predicate 0 false true 100 100 0x10 (by decide) (by decide)
    (by decide) (by decide)).2.2.1 (by decide) rfl

/-!  ## Alpha blending -/

/-- `AlphaBlend(srccolor, dstcolor, alpha)`; `RenderDispCnt` is passed
explicitly.  All arithmetic is unsigned 32-bit. -/
def AlphaBlend (dispcnt : Nat) (srccolor dstcolor alpha : Nat) : Nat :=
  let dstalpha := dstcolor >>> 24
  if dstalpha = 0 then srccolor
  else
    let srcR := srccolor &&& 0x3F
    let srcG := (srccolor >>> 8) &&& 0x3F
    let srcB := (srccolor >>> 16) &&& 0x3F
    let rgb : Nat × Nat × Nat :=
      if dispcnt &&& (1 <<< 3) ≠ 0 then
        let dstR := dstcolor &&& 0x3F
        let dstG := (dstcolor >>> 8) &&& 0x3F
        let dstB := (dstcolor >>> 16) &&& 0x3F
        let a1 := alpha + 1
        let na1 := (32 + 2 ^ 32 - a1) % 2 ^ 32
        (((srcR * a1 + dstR * na1) % 2 ^ 32) >>> 5,
         ((srcG * a1 + dstG * na1) % 2 ^ 32) >>> 5,
         ((srcB * a1 + dstB * na1) % 2 ^ 32) >>> 5)
      else (srcR, srcG, srcB)
    let dstalpha2 := if dstalpha < alpha then alpha else dstalpha
    rgb.1 ||| (rgb.2.1 <<< 8) ||| (rgb.2.2 <<< 16) ||| (dstalpha2 <<< 24)

/-- Modelled from the spec wording of claim C5: per-channel blend
`(src*(alpha+1) + dst*(32-(alpha+1))) >> 5` when display-control bit 3
is set, else the source color; output alpha is the maximum of the
source and destination alphas.  Used only as the comparison point for
C5. -/
def AlphaBlendSpec (dispcnt : Nat) (srccolor dstcolor alpha : Nat) : Nat :=
  let srcR := srccolor &&& 0x3F
  let srcG := (srccolor >>> 8) &&& 0x3F
  let srcB := (srccolor >>> 16) &&& 0x3F
  let dstR := dstcolor &&& 0x3F
  let dstG := (dstcolor >>> 8) &&& 0x3F
  let dstB := (dstcolor >>> 16) &&& 0x3F
  let outR := if dispcnt &&& (1 <<< 3) ≠ 0 then
    (srcR * (alpha + 1) + dstR * (32 - (alpha + 1))) >>> 5 else srcR
  let outG := if dispcnt &&& (1 <<< 3) ≠ 0 then
    (srcG * (alpha + 1) + dstG * (32 - (alpha + 1))) >>> 5 else srcG
  let outB := if dispcnt &&& (1 <<< 3) ≠ 0 then
    (srcB * (alpha + 1) + dstB * (32 - (alpha + 1))) >>> 5 else srcB
  let outA := max alpha (dstcolor >>> 24)
  outR ||| (outG <<< 8) ||| (outB <<< 16) ||| (outA <<< 24)

/-- C5, counterexample: when the destination alpha is zero the source
color is returned unchanged, so with display-control bit 3 set the
output is not the blend the claim describes. -/
theorem c5_counterexample :
    AlphaBlend 8 63 0 15 = 63 ∧ AlphaBlendSpec 8 63 0 15 = 0x0F00001F ∧
    AlphaBlend 8 63 0 15 ≠ AlphaBlendSpec 8 63 0 15 := by
  refine ⟨by decide, by decide, by decide⟩

/-- C5 (amended): for every translucent pixel write **onto a
destination whose alpha is nonzero**, with display-control bit 3 set
the output color is `(src*(alpha+1) + dst*(32-(alpha+1))) >> 5` per
RGB channel, with bit 3 clear the source color replaces the
destination, and in both cases the output alpha is the maximum of the
source and destination alphas.  When the destination alpha is zero the
source pixel is returned unchanged instead. -/
theorem blend_channel_mod (s d a : Nat) (ha : a ≤ 31) :
    ((s &&& 63) * (a + 1) + (d &&& 63) * (32 - (a + 1))) % 2 ^ 32 =
      (s &&& 63) * (a + 1) + (d &&& 63) * (32 - (a + 1)) := by
  have hs : s &&& 63 ≤ 63 := Nat.and_le_right
  have hd : d &&& 63 ≤ 63 := Nat.and_le_right
  have h1 : (s &&& 63) * (a + 1) ≤ 63 * 32 := Nat.mul_le_mul hs (by omega)
  have h2 : (d &&& 63) * (32 - (a + 1)) ≤ 63 * 32 := Nat.mul_le_mul hd (by omega)
  omega

theorem c5_alpha_blend (dispcnt srccolor dstcolor alpha : Nat)
    (halpha : alpha ≤ 31) (hdst : dstcolor >>> 24 ≠ 0) :
    AlphaBlend dispcnt srccolor dstcolor alpha =
      AlphaBlendSpec dispcnt srccolor dstcolor alpha := by
  unfold AlphaBlend AlphaBlendSpec
  rw [if_neg hdst]
  dsimp only
  have hna : (32 + 2 ^ 32 - (alpha + 1)) % 2 ^ 32 = 32 - (alpha + 1) := by omega
  have hmax : (if dstcolor >>> 24 < alpha then alpha else dstcolor >>> 24) =
      max alpha (dstcolor >>> 24) := by
    split <;> omega
  rw [hna, hmax, blend_channel_mod srccolor dstcolor alpha halpha,
    blend_channel_mod (srccolor >>> 8) (dstcolor >>> 8) alpha halpha,
    blend_channel_mod (srccolor >>> 16) (dstcolor >>> 16) alpha halpha]
  by_cases hbit : dispcnt &&& (1 <<< 3) ≠ 0
  · simp only [if_pos hbit]
  · simp only [if_neg hbit]

/-- Witness for `c5_alpha_blend`: blending onto an opaque black
destination. -/
theorem c5_witness :
    AlphaBlend 8 0x3F 0x1F000000 15 = AlphaBlendSpec 8 0x3F 0x1F000000 15 :=
  c5_alpha_blend 8 0x3F 0x1F000000 15 (by decide) (by decide)

/-!  ## The translucent plot -/

/-- `PlotTranslucentPixel(pixeladdr, color, z, polyattr, shadow)`,
phrased as a transformer of the destination pixel
`(dstcolor, dstdepth, dstattr)` at the plotted address; `z` is the
unsigned 32-bit value passed by the caller (`0xFFFFFFFF`, that is
`(u32)-1`, means "do not update depth"). -/
def PlotTranslucentPixel (dispcnt dstcolor dstdepth dstattr color z polyattr : Nat)
    (shadow : Bool) : Nat × Nat × Nat :=
  let attr := (polyattr &&& 0xE0F0) ||| ((polyattr >>> 8) &&& 0xFF0000) |||
    0x400000 ||| (dstattr &&& 0xFF001F0F)
  let skip : Bool :=
    if shadow then
      -- for shadows, opaque pixels are also checked
      if dstattr &&& 0x400000 ≠ 0 then
        decide (dstattr &&& 0x7F0000 = attr &&& 0x7F0000)
      else
        decide (dstattr &&& 0x3F000000 = polyattr &&& 0x3F000000)
    else
      -- skip if translucent polygon IDs are equal
      decide (dstattr &&& 0x7F0000 = attr &&& 0x7F0000)
  if skip then (dstcolor, dstdepth, dstattr)
  else
    let attr2 := if dstattr &&& 0x8000 = 0 then attr &&& 0xFFFF7FFF else attr
    let color2 := AlphaBlend dispcnt color dstcolor (color >>> 24)
    let depth2 := if z ≠ 0xFFFFFFFF then z else dstdepth
    (color2, depth2, attr2)

/-! ### Bit-manipulation helpers -/

theorem nat_or_shiftRight (a b k : Nat) :
    (a ||| b) >>> k = (a >>> k) ||| (b >>> k) := by
  apply Nat.eq_of_testBit_eq
  intro i
  simp [Nat.testBit_shiftRight, Nat.testBit_or]

theorem nat_and_shiftRight (a b k : Nat) :
    (a &&& b) >>> k = (a >>> k) &&& (b >>> k) := by
  apply Nat.eq_of_testBit_eq
  intro i
  simp [Nat.testBit_shiftRight, Nat.testBit_and]

theorem nat_and_shiftLeft_comm (x m k : Nat) :
    x &&& (m <<< k) = ((x >>> k) &&& m) <<< k := by
  apply Nat.eq_of_testBit_eq
  intro i
  simp only [Nat.testBit_and, Nat.testBit_shiftLeft, Nat.testBit_shiftRight]
  by_cases h : k ≤ i
  · have h2 : k + (i - k) = i := by omega
    simp [h, h2]
  · simp [h]

/-- The skip guard of `PlotTranslucentPixel`: if the destination is
translucent with the same 6-bit translucent polygon id as the incoming
polygon, the compared fields (bits 16-22) coincide. -/
theorem c4guard (dstattr polyattr : Nat)
    (h22 : dstattr / 2 ^ 22 % 2 = 1)
    (hid : dstattr / 2 ^ 16 % 64 = polyattr / 2 ^ 24 % 64) :
    dstattr &&& 0x7F0000 =
      ((polyattr &&& 0xE0F0) ||| ((polyattr >>> 8) &&& 0xFF0000) |||
        0x400000 ||| (dstattr &&& 0xFF001F0F)) &&& 0x7F0000 := by
  have hmask : (0x7F0000 : Nat) = 0x7F <<< 16 := by decide
  rw [hmask, nat_and_shiftLeft_comm, nat_and_shiftLeft_comm]
  congr 1
  rw [nat_or_shiftRight, nat_or_shiftRight, nat_or_shiftRight]
  have hA : (polyattr &&& 0xE0F0) >>> 16 = 0 := by
    have h1 : polyattr &&& 0xE0F0 ≤ 0xE0F0 := Nat.and_le_right
    rw [Nat.shiftRight_eq_div_pow]
    omega
  have hB : ((polyattr >>> 8) &&& 0xFF0000) >>> 16 = (polyattr >>> 24) &&& 0xFF := by
    have h1 : (0xFF0000 : Nat) = 0xFF <<< 16 := by decide
    rw [h1, nat_and_shiftLeft_comm, Nat.shiftLeft_shiftRight,
      show (24 : Nat) = 8 + 16 from rfl, Nat.shiftRight_add]
  have hC : ((0x400000 : Nat)) >>> 16 = 0x40 := by decide
  have hD : (dstattr &&& 0xFF001F0F) >>> 16 = (dstattr >>> 16) &&& 0xFF00 := by
    rw [nat_and_shiftRight, show (0xFF001F0F : Nat) >>> 16 = 0xFF00 from by decide]
  rw [hA, hB, hC, hD]
  rw [Nat.and_distrib_right, Nat.and_distrib_right, Nat.and_distrib_right]
  have hBB : ((polyattr >>> 24) &&& 0xFF) &&& 0x7F = (polyattr >>> 24) &&& 0x7F := by
    rw [Nat.and_assoc, show (0xFF &&& 0x7F : Nat) = 0x7F from by decide]
  have hCC : (0x40 : Nat) &&& 0x7F = 0x40 := by decide
  have hDD : (((dstattr >>> 16) &&& 0xFF00)) &&& 0x7F = 0 := by
    rw [Nat.and_assoc, show (0xFF00 &&& 0x7F : Nat) = 0 from by decide, Nat.and_zero]
  rw [hBB, hCC, hDD, Nat.zero_and, Nat.zero_or, Nat.or_zero]
  have hmod : ∀ x : Nat, x &&& 0x7F = x % 128 := by
    intro x
    have h1 := Nat.and_pow_two_sub_one_eq_mod x 7
    norm_num at h1
    exact h1
  rw [hmod, hmod, Nat.shiftRight_eq_div_pow, Nat.shiftRight_eq_div_pow]
  have hor : ∀ q : Nat, q < 128 → q ||| 64 = q % 64 + 64 := by decide
  rw [hor _ (Nat.mod_lt _ (by norm_num))]
  have hdiv : dstattr / 2 ^ 22 = dstattr / 2 ^ 16 / 2 ^ 6 := by
    rw [Nat.div_div_eq_div_mul]
    norm_num
  rw [hdiv] at h22
  omega

/-- C4 (confirmed): a translucent plot on a destination that is
already translucent (attribute bit 22 set) and whose translucent
polygon id (bits 16-21) equals the incoming polygon id (polyattr bits
24-29) writes nothing: color, depth and attribute are unchanged. -/
theorem c4_translucent_skip (dispcnt dstcolor dstdepth dstattr color z polyattr : Nat)
    (shadow : Bool)
    (h22 : dstattr / 2 ^ 22 % 2 = 1)
    (hid : dstattr / 2 ^ 16 % 64 = polyattr / 2 ^ 24 % 64) :
    PlotTranslucentPixel dispcnt dstcolor dstdepth dstattr color z polyattr shadow =
      (dstcolor, dstdepth, dstattr) := by
  have hguard := c4guard dstattr polyattr h22 hid
  have h22b : dstattr &&& 0x400000 ≠ 0 := by
    intro hz
    have htb := Nat.and_two_pow dstattr 22
    rw [show (2 ^ 22 : Nat) = 0x400000 from by norm_num] at htb
    rw [hz] at htb
    cases hb : dstattr.testBit 22 with
    | false =>
      rw [Nat.testBit_to_div_mod] at hb
      simp only [decide_eq_false_iff_not] at hb
      omega
    | true =>
      rw [hb] at htb
      norm_num at htb
  unfold PlotTranslucentPixel
  dsimp only
  cases shadow
  · simp [hguard]
  · simp [h22b, hguard]

/-- Witness for `c4_translucent_skip`: destination attribute
`0x450000` (translucent, id 5) against incoming polygon attribute
`0x05000000` (id 5): the pixel is left untouched. -/
theorem c4_witness :
    PlotTranslucentPixel 0 1 2 0x450000 3 4 0x05000000 false = (1, 2, 0x450000) :=
  c4_translucent_skip 0 1 2 0x450000 3 4 0x05000000 false (by decide) (by decide)

/-!  ## Fog density -/

/-- `CalculateFogDensity(pixeladdr)`, with the depth value `z` and the
registers `RenderFogOffset`, `RenderFogShift`,
`RenderFogDensityTable` passed explicitly.  The shifted depth is
unsigned 32-bit and can wrap for a large fog shift, which the source
relies on; table entries are bytes. -/
def CalculateFogDensity (fogOffset fogShift : Nat) (table : Nat → Nat) (z : Nat) : Nat :=
  let idf : Nat × Nat :=
    if z < fogOffset then (0, 0)
    else
      let z2 := (((z - fogOffset) >>> 2) <<< fogShift) % 2 ^ 32
      let densityid := z2 >>> 17
      if 32 ≤ densityid then (32, 0)
      else (densityid, z2 &&& 0x1FFFF)
  let density := (table idf.1 * (0x20000 - idf.2) + table (idf.1 + 1) * idf.2) >>> 17
  if 127 ≤ density then 128 else density

/-- C6, counterexample: a table whose entry 0 is 127 interpolates to
exactly 127, and the code turns any value of 127 or more into 128, so
the result is not the minimum of the interpolated value and 128. -/
theorem c6_counterexample :
    CalculateFogDensity 0 0 (fun i => if i = 0 then 127 else 0) 0 = 128 ∧
    min (((fun i => if i = 0 then (127 : Nat) else 0) 0 * (0x20000 - 0) +
      (fun i => if i = 0 then (127 : Nat) else 0) 1 * 0) >>> 17) 128 = 127 ∧
    (128 : Nat) ≠ 127 := by
  refine ⟨by decide, by decide, by decide⟩

/-- C6 (amended): the computed fog density equals
`(T[id]*(0x20000-frac) + T[id+1]*frac) >> 17` where
`id = min(z' >> 17, 32)` and `frac = z' & 0x1FFFF` **when `id` does
not clamp, and `frac = 0` when it does** (the same holds below the fog
offset, where `z'` is taken as 0), and any interpolated value of 127
or more is replaced by 128 (rather than being clamped to
`min(value, 128)`, which differs at 127). -/
theorem c6_fog_density (fogOffset fogShift z : Nat) (table : Nat → Nat) :
    CalculateFogDensity fogOffset fogShift table z =
      (let z2 := if z < fogOffset then 0
        else (((z - fogOffset) >>> 2) <<< fogShift) % 2 ^ 32
       let id := min (z2 >>> 17) 32
       let frac := if z2 >>> 17 < 32 then z2 &&& 0x1FFFF else 0
       let interp := (table id * (0x20000 - frac) + table (id + 1) * frac) >>> 17
       if 127 ≤ interp then 128 else interp) := by
  unfold CalculateFogDensity
  by_cases hz : z < fogOffset
  · simp [hz]
  · simp only [if_neg hz]
    by_cases hid : 32 ≤ ((((z - fogOffset) >>> 2) <<< fogShift) % 2 ^ 32) >>> 17
    · simp only [if_pos hid]
      have h1 : min (((((z - fogOffset) >>> 2) <<< fogShift) % 2 ^ 32) >>> 17) 32 = 32 :=
        min_eq_right hid
      rw [h1, if_neg (by omega : ¬(((((z - fogOffset) >>> 2) <<< fogShift) % 2 ^ 32) >>> 17 < 32))]
    · simp only [if_neg hid]
      have h1 : min (((((z - fogOffset) >>> 2) <<< fogShift) % 2 ^ 32) >>> 17) 32 =
          ((((z - fogOffset) >>> 2) <<< fogShift) % 2 ^ 32) >>> 17 :=
        min_eq_left (by omega)
      rw [h1, if_pos (by omega : ((((z - fogOffset) >>> 2) <<< fogShift) % 2 ^ 32) >>> 17 < 32)]

/-!  ## Scanline addressing and `GetLine` -/

def ScanlineWidth : Nat := 258

def NumScanlines : Nat := 194

def BufferSize : Nat := ScanlineWidth * NumScanlines

def FirstPixelOffset : Nat := ScanlineWidth + 1

/-- `GetLine(line)` as the index into `ColorBuffer` that the returned
pointer designates. -/
def GetLine (line : Nat) : Nat := line * ScanlineWidth + FirstPixelOffset

/-- The rasterizer addressing `FirstPixelOffset + y*ScanlineWidth + x`
of the pixel at column `x` of line `y`, used throughout the scanline
renderer. -/
def pixelAddr (y x : Nat) : Nat := FirstPixelOffset + y * ScanlineWidth + x

/-- C9, counterexample: the pointer returned by `GetLine(0)` points
directly at the first usable pixel of line 0, so that pixel is at
offset 0 from the returned pointer, not at offset 1. -/
theorem c9_counterexample :
    GetLine 0 = pixelAddr 0 0 ∧ GetLine 0 + 1 ≠ pixelAddr 0 0 := by
  refine ⟨by decide, by decide⟩

/-- C9 (amended): for every line `y`, `GetLine(y)` returns the buffer
index `258*y + 259`, which is exactly the address of the first usable
pixel (column 0) of line `y`: the first usable pixel is at offset 0
from the returned pointer, not offset 1. -/
theorem c9_get_line (y : Nat) : GetLine y = pixelAddr y 0 := by
  unfold GetLine pixelAddr FirstPixelOffset ScanlineWidth
  omega

/-!  ## Texture lookup

`TextureLookup(texparam, texpal, s, t, &color, &alpha)`.  VRAM is
modelled as total byte memories `tex pal : Nat → Nat`; every access
reduces the cell value modulo 256 (the cells are `u8`) and masks the
address to the flat-view size, exactly as `ReadVRAM_Texture` and
`ReadVRAM_TexPal` do.  A 16-bit read is little-endian from the masked
byte address; the second byte is read at the following address, as in
the source. -/

def ReadVRAM_Texture8 (tex : Nat → Nat) (addr : Nat) : Nat :=
  tex (addr % 0x80000) % 256

def ReadVRAM_Texture16 (tex : Nat → Nat) (addr : Nat) : Nat :=
  tex (addr % 0x80000) % 256 + 256 * (tex (addr % 0x80000 + 1) % 256)

def ReadVRAM_TexPal16 (pal : Nat → Nat) (addr : Nat) : Nat :=
  pal (addr % 0x20000) % 256 + 256 * (pal (addr % 0x20000 + 1) % 256)

/-- The per-axis wrap/mirror/clamp of a texture coordinate.  `size` is
a power of two (`8 << n`), so the bitwise tests of the source are
expressed with Euclidean remainders: `c & (size-1)` is `c mod size`
and `c & size` is nonzero exactly when `c mod 2*size ≥ size`. -/
def texWrap (coord : Int) (size : Nat) (repeatFlag mirrorFlag : Bool) : Nat :=
  if repeatFlag then
    if mirrorFlag then
      if size ≤ (coord % (2 * size)).toNat then
        (size - 1) - (coord % (size : Int)).toNat
      else (coord % (size : Int)).toNat
    else (coord % (size : Int)).toNat
  else
    if coord < 0 then 0
    else if (size : Int) ≤ coord then size - 1
    else coord.toNat

/-- Format 1 (A3I5): byte texel, low 5 bits palette index, high 3 bits
alpha expanded to 5 bits. -/
def lookupA3I5 (tex pal : Nat → Nat) (vramaddr texpal s t width : Nat) : Nat × Nat :=
  let pixel := ReadVRAM_Texture8 tex (vramaddr + (t * width + s))
  let color := ReadVRAM_TexPal16 pal ((texpal <<< 4) + ((pixel &&& 0x1F) <<< 1))
  (color, ((pixel >>> 3) &&& 0x1C) + (pixel >>> 6))

/-- Format 2 (4-color): 2-bit texels packed four per byte. -/
def lookup4Color (tex pal : Nat → Nat) (vramaddr texpal s t width alpha0 : Nat) : Nat × Nat :=
  let pixel0 := ReadVRAM_Texture8 tex (vramaddr + ((t * width + s) >>> 2))
  let pixel := (pixel0 >>> ((s &&& 0x3) <<< 1)) &&& 0x3
  let color := ReadVRAM_TexPal16 pal ((texpal <<< 3) + (pixel <<< 1))
  (color, if pixel = 0 then alpha0 else 31)

/-- Format 3 (16-color): 4-bit texels packed two per byte. -/
def lookup16Color (tex pal : Nat → Nat) (vramaddr texpal s t width alpha0 : Nat) : Nat × Nat :=
  let pixel0 := ReadVRAM_Texture8 tex (vramaddr + ((t * width + s) >>> 1))
  let pixel := if s &&& 0x1 ≠ 0 then pixel0 >>> 4 else pixel0 &&& 0xF
  let color := ReadVRAM_TexPal16 pal ((texpal <<< 4) + (pixel <<< 1))
  (color, if pixel = 0 then alpha0 else 31)

/-- Format 4 (256-color): byte texels. -/
def lookup256Color (tex pal : Nat → Nat) (vramaddr texpal s t width alpha0 : Nat) : Nat × Nat :=
  let pixel := ReadVRAM_Texture8 tex (vramaddr + (t * width + s))
  let color := ReadVRAM_TexPal16 pal ((texpal <<< 4) + (pixel <<< 1))
  (color, if pixel = 0 then alpha0 else 31)

/-- Format 5 (compressed 4x4 blocks): 2-bit indices in the texture
slot, 16-bit palette header in the sibling slot-1 region. -/
def lookupCompressed (tex pal : Nat → Nat) (vramaddr texpal s t width : Nat) : Nat × Nat :=
  let addr := vramaddr + ((t &&& 0x3FC) * (width >>> 2)) + (s &&& 0x3FC) + (t &&& 0x3)
  let slot1addr :=
    if 0x40000 ≤ addr then 0x20000 + ((addr &&& 0x1FFFC) >>> 1) + 0x10000
    else 0x20000 + ((addr &&& 0x1FFFC) >>> 1)
  let val := (ReadVRAM_Texture8 tex addr >>> (2 * (s &&& 0x3))) &&& 0x3
  let palinfo := ReadVRAM_Texture16 tex slot1addr
  let paloffset := (palinfo &&& 0x3FFF) <<< 2
  let base := texpal <<< 4
  if val = 0 then (ReadVRAM_TexPal16 pal (base + paloffset), 31)
  else if val = 1 then (ReadVRAM_TexPal16 pal (base + paloffset + 2), 31)
  else if val = 2 then
    if palinfo >>> 14 = 1 then
      let color0 := ReadVRAM_TexPal16 pal (base + paloffset)
      let color1 := ReadVRAM_TexPal16 pal (base + paloffset + 2)
      let r := ((color0 &&& 0x001F) + (color1 &&& 0x001F)) >>> 1
      let g := (((color0 &&& 0x03E0) + (color1 &&& 0x03E0)) >>> 1) &&& 0x03E0
      let b := (((color0 &&& 0x7C00) + (color1 &&& 0x7C00)) >>> 1) &&& 0x7C00
      (r ||| g ||| b, 31)
    else if palinfo >>> 14 = 3 then
      let color0 := ReadVRAM_TexPal16 pal (base + paloffset)
      let color1 := ReadVRAM_TexPal16 pal (base + paloffset + 2)
      let r := ((color0 &&& 0x001F) * 5 + (color1 &&& 0x001F) * 3) >>> 3
      let g := (((color0 &&& 0x03E0) * 5 + (color1 &&& 0x03E0) * 3) >>> 3) &&& 0x03E0
      let b := (((color0 &&& 0x7C00) * 5 + (color1 &&& 0x7C00) * 3) >>> 3) &&& 0x7C00
      (r ||| g ||| b, 31)
    else (ReadVRAM_TexPal16 pal (base + paloffset + 4), 31)
  else
    if palinfo >>> 14 = 2 then (ReadVRAM_TexPal16 pal (base + paloffset + 6), 31)
    else if palinfo >>> 14 = 3 then
      let color0 := ReadVRAM_TexPal16 pal (base + paloffset)
      let color1 := ReadVRAM_TexPal16 pal (base + paloffset + 2)
      let r := ((color0 &&& 0x001F) * 3 + (color1 &&& 0x001F) * 5) >>> 3
      let g := (((color0 &&& 0x03E0) * 3 + (color1 &&& 0x03E0) * 5) >>> 3) &&& 0x03E0
      let b := (((color0 &&& 0x7C00) * 3 + (color1 &&& 0x7C00) * 5) >>> 3) &&& 0x7C00
      (r ||| g ||| b, 31)
    else (0, 0)

/-- Format 6 (A5I3): byte texel, low 3 bits palette index, high 5 bits
alpha. -/
def lookupA5I3 (tex pal : Nat → Nat) (vramaddr texpal s t width : Nat) : Nat × Nat :=
  let pixel := ReadVRAM_Texture8 tex (vramaddr + (t * width + s))
  let color := ReadVRAM_TexPal16 pal ((texpal <<< 4) + ((pixel &&& 0x7) <<< 1))
  (color, pixel >>> 3)

/-- Format 7 (direct color): 16-bit texel, alpha from bit 15. -/
def lookupDirect (tex : Nat → Nat) (vramaddr s t width : Nat) : Nat × Nat :=
  let color := ReadVRAM_Texture16 tex (vramaddr + ((t * width + s) <<< 1))
  (color, if color &&& 0x8000 ≠ 0 then 31 else 0)

/-- The format switch of `TextureLookup` (bits 26-28 of `texparam`).
Format 0 means "no texture"; the source leaves the outputs unset there
and no caller uses it, so it is modelled as `(0, 0)`. -/
def formatDispatch (tex pal : Nat → Nat) (fmt vramaddr texpal s t width alpha0 : Nat) :
    Nat × Nat :=
  if fmt = 1 then lookupA3I5 tex pal vramaddr texpal s t width
  else if fmt = 2 then lookup4Color tex pal vramaddr texpal s t width alpha0
  else if fmt = 3 then lookup16Color tex pal vramaddr texpal s t width alpha0
  else if fmt = 4 then lookup256Color tex pal vramaddr texpal s t width alpha0
  else if fmt = 5 then lookupCompressed tex pal vramaddr texpal s t width
  else if fmt = 6 then lookupA5I3 tex pal vramaddr texpal s t width
  else if fmt = 7 then lookupDirect tex vramaddr s t width
  else (0, 0)

/-- `TextureLookup`: wrap the coordinates, then dispatch on the format
field. -/
def TextureLookup (tex pal : Nat → Nat) (texparam texpal : Nat) (s0 t0 : Int) : Nat × Nat :=
  let vramaddr := (texparam &&& 0xFFFF) <<< 3
  let width : Nat := 8 <<< ((texparam >>> 20) &&& 0x7)
  let height : Nat := 8 <<< ((texparam >>> 23) &&& 0x7)
  let s := texWrap (s0 / 2 ^ 4) width
    (texparam &&& (1 <<< 16) ≠ 0) (texparam &&& (1 <<< 18) ≠ 0)
  let t := texWrap (t0 / 2 ^ 4) height
    (texparam &&& (1 <<< 17) ≠ 0) (texparam &&& (1 <<< 19) ≠ 0)
  let alpha0 : Nat := if texparam &&& (1 <<< 29) ≠ 0 then 0 else 31
  formatDispatch tex pal ((texparam >>> 26) &&& 0x7) vramaddr texpal s t width alpha0

/-! ### All VRAM accesses of the texture sampler are in bounds

The read helpers mask every byte address to the flat-view sizes
(`0x80000` for texture memory, `0x20000` for palette memory), and
every 16-bit access happens at an even masked address, so its second
byte is in bounds as well.  This is stated extensionally: the sampler
result depends only on the in-bounds bytes of the two memories. -/

theorem read8_congr (tex tex' : Nat → Nat)
    (htex : ∀ i, i < 0x80000 → tex i = tex' i) (a : Nat) :
    ReadVRAM_Texture8 tex a = ReadVRAM_Texture8 tex' a := by
  unfold ReadVRAM_Texture8
  rw [htex _ (Nat.mod_lt _ (by norm_num))]

theorem read16_congr (tex tex' : Nat → Nat)
    (htex : ∀ i, i < 0x80000 → tex i = tex' i) (a : Nat) (ha : a % 2 = 0) :
    ReadVRAM_Texture16 tex a = ReadVRAM_Texture16 tex' a := by
  unfold ReadVRAM_Texture16
  have h1 : a % 0x80000 < 0x80000 := Nat.mod_lt _ (by norm_num)
  have h2 : a % 0x80000 % 2 = 0 := by omega
  rw [htex _ h1, htex _ (by omega : a % 0x80000 + 1 < 0x80000)]

theorem readpal16_congr (pal pal' : Nat → Nat)
    (hpal : ∀ i, i < 0x20000 → pal i = pal' i) (a : Nat) (ha : a % 2 = 0) :
    ReadVRAM_TexPal16 pal a = ReadVRAM_TexPal16 pal' a := by
  unfold ReadVRAM_TexPal16
  have h1 : a % 0x20000 < 0x20000 := Nat.mod_lt _ (by norm_num)
  have h2 : a % 0x20000 % 2 = 0 := by omega
  rw [hpal _ h1, hpal _ (by omega : a % 0x20000 + 1 < 0x20000)]

theorem lookupA3I5_ext (tex tex' pal pal' : Nat → Nat)
    (htex : ∀ i, i < 0x80000 → tex i = tex' i)
    (hpal : ∀ i, i < 0x20000 → pal i = pal' i)
    (vramaddr texpal s t width : Nat) :
    lookupA3I5 tex pal vramaddr texpal s t width =
      lookupA3I5 tex' pal' vramaddr texpal s t width := by
  unfold lookupA3I5
  dsimp only
  rw [read8_congr tex tex' htex (vramaddr + (t * width + s))]
  rw [readpal16_congr pal pal' hpal
    ((texpal <<< 4) +
      ((ReadVRAM_Texture8 tex' (vramaddr + (t * width + s)) &&& 0x1F) <<< 1))
    (by omega)]

theorem lookup4Color_ext (tex tex' pal pal' : Nat → Nat)
    (htex : ∀ i, i < 0x80000 → tex i = tex' i)
    (hpal : ∀ i, i < 0x20000 → pal i = pal' i)
    (vramaddr texpal s t width alpha0 : Nat) :
    lookup4Color tex pal vramaddr texpal s t width alpha0 =
      lookup4Color tex' pal' vramaddr texpal s t width alpha0 := by
  unfold lookup4Color
  dsimp only
  rw [read8_congr tex tex' htex (vramaddr + ((t * width + s) >>> 2))]
  rw [readpal16_congr pal pal' hpal
    ((texpal <<< 3) +
      (((ReadVRAM_Texture8 tex' (vramaddr + ((t * width + s) >>> 2)) >>>
        ((s &&& 0x3) <<< 1)) &&& 0x3) <<< 1))
    (by omega)]

theorem lookup16Color_ext (tex tex' pal pal' : Nat → Nat)
    (htex : ∀ i, i < 0x80000 → tex i = tex' i)
    (hpal : ∀ i, i < 0x20000 → pal i = pal' i)
    (vramaddr texpal s t width alpha0 : Nat) :
    lookup16Color tex pal vramaddr texpal s t width alpha0 =
      lookup16Color tex' pal' vramaddr texpal s t width alpha0 := by
  unfold lookup16Color
  dsimp only
  rw [read8_congr tex tex' htex (vramaddr + ((t * width + s) >>> 1))]
  rw [readpal16_congr pal pal' hpal
    ((texpal <<< 4) +
      ((if s &&& 0x1 ≠ 0 then
          ReadVRAM_Texture8 tex' (vramaddr + ((t * width + s) >>> 1)) >>> 4
        else ReadVRAM_Texture8 tex' (vramaddr + ((t * width + s) >>> 1)) &&& 0xF) <<< 1))
    (by omega)]

theorem lookup256Color_ext (tex tex' pal pal' : Nat → Nat)
    (htex : ∀ i, i < 0x80000 → tex i = tex' i)
    (hpal : ∀ i, i < 0x20000 → pal i = pal' i)
    (vramaddr texpal s t width alpha0 : Nat) :
    lookup256Color tex pal vramaddr texpal s t width alpha0 =
      lookup256Color tex' pal' vramaddr texpal s t width alpha0 := by
  unfold lookup256Color
  dsimp only
  rw [read8_congr tex tex' htex (vramaddr + (t * width + s))]
  rw [readpal16_congr pal pal' hpal
    ((texpal <<< 4) +
      (ReadVRAM_Texture8 tex' (vramaddr + (t * width + s)) <<< 1))
    (by omega)]

theorem slot1addr_parity (A : Nat) :
    (if 0x40000 ≤ A then 0x20000 + ((A &&& 0x1FFFC) >>> 1) + 0x10000
     else 0x20000 + ((A &&& 0x1FFFC) >>> 1)) % 2 = 0 := by
  have h1 : ((A &&& 0x1FFFC) >>> 1) % 2 = 0 := by
    rw [show (0x1FFFC : Nat) = 0x7FFF <<< 2 from by decide, nat_and_shiftLeft_comm,
      Nat.shiftLeft_eq, Nat.shiftRight_eq_div_pow]
    omega
  split <;> omega

theorem lookupCompressed_ext (tex tex' pal pal' : Nat → Nat)
    (htex : ∀ i, i < 0x80000 → tex i = tex' i)
    (hpal : ∀ i, i < 0x20000 → pal i = pal' i)
    (vramaddr texpal s t width : Nat) :
    lookupCompressed tex pal vramaddr texpal s t width =
      lookupCompressed tex' pal' vramaddr texpal s t width := by
  unfold lookupCompressed
  dsimp only
  rw [read8_congr tex tex' htex
    (vramaddr + (t &&& 0x3FC) * (width >>> 2) + (s &&& 0x3FC) + (t &&& 0x3))]
  rw [read16_congr tex tex' htex _ (slot1addr_parity
    (vramaddr + (t &&& 0x3FC) * (width >>> 2) + (s &&& 0x3FC) + (t &&& 0x3)))]
  generalize ReadVRAM_Texture16 tex'
    (if 0x40000 ≤ vramaddr + (t &&& 0x3FC) * (width >>> 2) + (s &&& 0x3FC) + (t &&& 0x3) then
      0x20000 + (((vramaddr + (t &&& 0x3FC) * (width >>> 2) + (s &&& 0x3FC) + (t &&& 0x3)) &&&
        0x1FFFC) >>> 1) + 0x10000
     else 0x20000 + (((vramaddr + (t &&& 0x3FC) * (width >>> 2) + (s &&& 0x3FC) + (t &&& 0x3)) &&&
        0x1FFFC) >>> 1)) = pi
  rw [readpal16_congr pal pal' hpal ((texpal <<< 4) + ((pi &&& 0x3FFF) <<< 2)) (by omega),
    readpal16_congr pal pal' hpal ((texpal <<< 4) + ((pi &&& 0x3FFF) <<< 2) + 2) (by omega),
    readpal16_congr pal pal' hpal ((texpal <<< 4) + ((pi &&& 0x3FFF) <<< 2) + 4) (by omega),
    readpal16_congr pal pal' hpal ((texpal <<< 4) + ((pi &&& 0x3FFF) <<< 2) + 6) (by omega)]

theorem lookupA5I3_ext (tex tex' pal pal' : Nat → Nat)
    (htex : ∀ i, i < 0x80000 → tex i = tex' i)
    (hpal : ∀ i, i < 0x20000 → pal i = pal' i)
    (vramaddr texpal s t width : Nat) :
    lookupA5I3 tex pal vramaddr texpal s t width =
      lookupA5I3 tex' pal' vramaddr texpal s t width := by
  unfold lookupA5I3
  dsimp only
  rw [read8_congr tex tex' htex (vramaddr + (t * width + s))]
  rw [readpal16_congr pal pal' hpal
    ((texpal <<< 4) +
      ((ReadVRAM_Texture8 tex' (vramaddr + (t * width + s)) &&& 0x7) <<< 1))
    (by omega)]

theorem lookupDirect_ext (tex tex' : Nat → Nat)
    (htex : ∀ i, i < 0x80000 → tex i = tex' i)
    (vramaddr s t width : Nat) (hv : vramaddr % 2 = 0) :
    lookupDirect tex vramaddr s t width =
      lookupDirect tex' vramaddr s t width := by
  unfold lookupDirect
  dsimp only
  rw [read16_congr tex tex' htex (vramaddr + ((t * width + s) <<< 1)) (by omega)]

/-- C8 (confirmed, stated extensionally): the result of
`TextureLookup` depends only on the texture bytes at indices in
`[0, 0x80000)` and the palette bytes at indices in `[0, 0x20000)`:
every VRAM access, including those derived from arbitrary `texparam`,
`s`, `t` and the compressed-format slot-1 addresses, is masked to the
flat-view size (and 16-bit reads land on even masked addresses), so it
is in bounds. -/
theorem formatDispatch_ext (tex tex' pal pal' : Nat → Nat)
    (htex : ∀ i, i < 0x80000 → tex i = tex' i)
    (hpal : ∀ i, i < 0x20000 → pal i = pal' i)
    (fmt vramaddr texpal s t width alpha0 : Nat) (hv : vramaddr % 2 = 0) :
    formatDispatch tex pal fmt vramaddr texpal s t width alpha0 =
      formatDispatch tex' pal' fmt vramaddr texpal s t width alpha0 := by
  unfold formatDispatch
  split_ifs
  · exact lookupA3I5_ext tex tex' pal pal' htex hpal _ _ _ _ _
  · exact lookup4Color_ext tex tex' pal pal' htex hpal _ _ _ _ _ _
  · exact lookup16Color_ext tex tex' pal pal' htex hpal _ _ _ _ _ _
  · exact lookup256Color_ext tex tex' pal pal' htex hpal _ _ _ _ _ _
  · exact lookupCompressed_ext tex tex' pal pal' htex hpal _ _ _ _ _
  · exact lookupA5I3_ext tex tex' pal pal' htex hpal _ _ _ _ _
  · exact lookupDirect_ext tex tex' htex _ _ _ _ hv
  · rfl

theorem c8_texture_reads_in_bounds (tex tex' pal pal' : Nat → Nat)
    (htex : ∀ i, i < 0x80000 → tex i = tex' i)
    (hpal : ∀ i, i < 0x20000 → pal i = pal' i)
    (texparam texpal : Nat) (s0 t0 : Int) :
    TextureLookup tex pal texparam texpal s0 t0 =
      TextureLookup tex' pal' texparam texpal s0 t0 := by
  unfold TextureLookup
  exact formatDispatch_ext tex tex' pal pal' htex hpal _ _ _ _ _ _ _ (by omega)

/-- Witness for `c8_texture_reads_in_bounds` at concrete memories that
agree on the flat views but differ outside them. -/
theorem c8_witness :
    TextureLookup (fun i => if i < 0x80000 then 7 else 1) (fun i => if i < 0x20000 then 9 else 2)
        0x04000000 0 5 5 =
      TextureLookup (fun i => if i < 0x80000 then 7 else 3) (fun i => if i < 0x20000 then 9 else 4)
        0x04000000 0 5 5 :=
  c8_texture_reads_in_bounds _ _ _ _
    (fun i hi => by simp [hi]) (fun i hi => by simp [hi]) 0x04000000 0 5 5

/-!  ## The per-pixel pipeline (`RenderPixel`) -/

/-- The recurring 5-to-6-bit color channel expansion
`c = (x) & 0x3E; if (c) c++;` applied to an already-shifted value. -/
def colorExpand6 (v : Nat) : Nat :=
  if v &&& 0x3E ≠ 0 then (v &&& 0x3E) + 1 else v &&& 0x3E

/-- The highlight addition `r += vr; if (r > 63) r = 63;` on a `u8`. -/
def highlightClamp (x y : Nat) : Nat :=
  let s := (x + y) % 256
  if 63 < s then 63 else s

/-- The toon/highlight preprocessing of the vertex color in
`RenderPixel`. -/
def vertexColor (dispcnt : Nat) (toonTable : Nat → Nat)
    (blendmode vr0 vg0 vb0 : Nat) : Nat × Nat × Nat :=
  if blendmode = 2 then
    if dispcnt &&& (1 <<< 1) ≠ 0 then (vr0, vr0, vr0)
    else
      let tooncolor := toonTable (vr0 >>> 1)
      (colorExpand6 (tooncolor <<< 1), colorExpand6 (tooncolor >>> 4),
        colorExpand6 (tooncolor >>> 9))
  else (vr0, vg0, vb0)

/-- The decal/modulate combination of texel and vertex color in
`RenderPixel`.  The mid-range decal results are `u8` assignments and
can exceed 255 for large (non-6-bit) vertex values, hence the explicit
byte reduction. -/
def texBlend (blendmode polyalpha talpha tr tg tb vr vg vb : Nat) :
    Nat × Nat × Nat × Nat :=
  if blendmode &&& 0x1 ≠ 0 then
    -- decal
    if talpha = 0 then (vr, vg, vb, polyalpha)
    else if talpha = 31 then (tr, tg, tb, polyalpha)
    else
      (((tr * talpha + vr * (31 - talpha)) >>> 5) % 256,
       ((tg * talpha + vg * (31 - talpha)) >>> 5) % 256,
       ((tb * talpha + vb * (31 - talpha)) >>> 5) % 256,
       polyalpha)
  else
    -- modulate
    (((tr + 1) * (vr + 1) - 1) >>> 6,
     ((tg + 1) * (vg + 1) - 1) >>> 6,
     ((tb + 1) * (vb + 1) - 1) >>> 6,
     ((talpha + 1) * (polyalpha + 1) - 1) >>> 5)

/-- `RenderPixel(polygon, vr, vg, vb, s, t)` up to the final packing:
the polygon fields `Attr`, `TexParam`, `TexPalette` and the registers
are passed explicitly, and the result is the `(r, g, b, a)` tuple. -/
def renderPixelRGBA (dispcnt : Nat) (toonTable tex pal : Nat → Nat)
    (attr texparam texpalette : Nat) (vr0 vg0 vb0 : Nat) (s t : Int) :
    Nat × Nat × Nat × Nat :=
  let blendmode := (attr >>> 4) &&& 0x3
  let polyalpha := (attr >>> 16) &&& 0x1F
  let vcol := vertexColor dispcnt toonTable blendmode vr0 vg0 vb0
  let rgba : Nat × Nat × Nat × Nat :=
    if dispcnt &&& (1 <<< 0) ≠ 0 ∧ (texparam >>> 26) &&& 0x7 ≠ 0 then
      let tc := TextureLookup tex pal texparam texpalette s t
      texBlend blendmode polyalpha tc.2 (colorExpand6 (tc.1 <<< 1))
        (colorExpand6 (tc.1 >>> 4)) (colorExpand6 (tc.1 >>> 9))
        vcol.1 vcol.2.1 vcol.2.2
    else (vcol.1, vcol.2.1, vcol.2.2, polyalpha)
  let rgb2 : Nat × Nat × Nat :=
    if blendmode = 2 ∧ dispcnt &&& (1 <<< 1) ≠ 0 then
      let tooncolor := toonTable (vcol.1 >>> 1)
      (highlightClamp rgba.1 (colorExpand6 (tooncolor <<< 1)),
       highlightClamp rgba.2.1 (colorExpand6 (tooncolor >>> 4)),
       highlightClamp rgba.2.2.1 (colorExpand6 (tooncolor >>> 9)))
    else (rgba.1, rgba.2.1, rgba.2.2.1)
  let a2 := if polyalpha = 0 then 31 else rgba.2.2.2
  (rgb2.1, rgb2.2.1, rgb2.2.2, a2)

/-- `RenderPixel`: the packed 6-6-6-5 output word. -/
def RenderPixel (dispcnt : Nat) (toonTable tex pal : Nat → Nat)
    (attr texparam texpalette : Nat) (vr0 vg0 vb0 : Nat) (s t : Int) : Nat :=
  let p := renderPixelRGBA dispcnt toonTable tex pal attr texparam texpalette vr0 vg0 vb0 s t
  p.1 ||| (p.2.1 <<< 8) ||| (p.2.2.1 <<< 16) ||| (p.2.2.2 <<< 24)

/-! ### Bounds for the pipeline stages -/

theorem colorExpand6_le (v : Nat) : colorExpand6 v ≤ 63 := by
  unfold colorExpand6
  have h := Nat.and_le_right (n := v) (m := 0x3E)
  split <;> omega

theorem highlightClamp_le (x y : Nat) : highlightClamp x y ≤ 63 := by
  unfold highlightClamp
  dsimp only
  split <;> omega

theorem read8_lt (tex : Nat → Nat) (a : Nat) : ReadVRAM_Texture8 tex a < 256 := by
  unfold ReadVRAM_Texture8
  exact Nat.mod_lt _ (by norm_num)

theorem formatDispatch_alpha_le (tex pal : Nat → Nat)
    (fmt vramaddr texpal s t width alpha0 : Nat) (h0 : alpha0 ≤ 31) :
    (formatDispatch tex pal fmt vramaddr texpal s t width alpha0).2 ≤ 31 := by
  unfold formatDispatch
  split_ifs
  · -- A3I5
    unfold lookupA3I5
    dsimp only
    have h1 := read8_lt tex (vramaddr + (t * width + s))
    have h2 : ReadVRAM_Texture8 tex (vramaddr + (t * width + s)) >>> 3 &&& 0x1C ≤ 0x1C :=
      Nat.and_le_right
    omega
  · unfold lookup4Color
    dsimp only
    split_ifs <;> omega
  · unfold lookup16Color
    dsimp only
    split_ifs <;> omega
  · unfold lookup256Color
    dsimp only
    split_ifs <;> omega
  · unfold lookupCompressed
    dsimp only
    split_ifs <;> norm_num
  · -- A5I3
    unfold lookupA5I3
    dsimp only
    have h1 := read8_lt tex (vramaddr + (t * width + s))
    omega
  · unfold lookupDirect
    dsimp only
    split_ifs <;> omega
  · omega

theorem textureLookup_alpha_le (tex pal : Nat → Nat) (texparam texpal : Nat)
    (s0 t0 : Int) : (TextureLookup tex pal texparam texpal s0 t0).2 ≤ 31 := by
  unfold TextureLookup
  dsimp only
  apply formatDispatch_alpha_le
  split <;> omega

theorem vertexColor_bounds (dispcnt : Nat) (toonTable : Nat → Nat)
    (blendmode vr0 vg0 vb0 : Nat)
    (hr : vr0 ≤ 63) (hg : vg0 ≤ 63) (hb : vb0 ≤ 63) :
    (vertexColor dispcnt toonTable blendmode vr0 vg0 vb0).1 ≤ 63 ∧
    (vertexColor dispcnt toonTable blendmode vr0 vg0 vb0).2.1 ≤ 63 ∧
    (vertexColor dispcnt toonTable blendmode vr0 vg0 vb0).2.2 ≤ 63 := by
  unfold vertexColor
  split_ifs <;> refine ⟨?_, ?_, ?_⟩ <;> dsimp only <;>
    first | omega | exact colorExpand6_le _

theorem texBlend_bounds (blendmode polyalpha talpha tr tg tb vr vg vb : Nat)
    (hpa : polyalpha ≤ 31) (hta : talpha ≤ 31)
    (htr : tr ≤ 63) (htg : tg ≤ 63) (htb : tb ≤ 63)
    (hvr : vr ≤ 63) (hvg : vg ≤ 63) (hvb : vb ≤ 63) :
    (texBlend blendmode polyalpha talpha tr tg tb vr vg vb).1 ≤ 63 ∧
    (texBlend blendmode polyalpha talpha tr tg tb vr vg vb).2.1 ≤ 63 ∧
    (texBlend blendmode polyalpha talpha tr tg tb vr vg vb).2.2.1 ≤ 63 ∧
    (texBlend blendmode polyalpha talpha tr tg tb vr vg vb).2.2.2 ≤ 31 := by
  unfold texBlend
  have d1 : tr * talpha ≤ 63 * talpha := Nat.mul_le_mul_right _ htr
  have d2 : tg * talpha ≤ 63 * talpha := Nat.mul_le_mul_right _ htg
  have d3 : tb * talpha ≤ 63 * talpha := Nat.mul_le_mul_right _ htb
  have d4 : vr * (31 - talpha) ≤ 63 * (31 - talpha) := Nat.mul_le_mul_right _ hvr
  have d5 : vg * (31 - talpha) ≤ 63 * (31 - talpha) := Nat.mul_le_mul_right _ hvg
  have d6 : vb * (31 - talpha) ≤ 63 * (31 - talpha) := Nat.mul_le_mul_right _ hvb
  have m1 : (tr + 1) * (vr + 1) ≤ 64 * 64 := Nat.mul_le_mul (by omega) (by omega)
  have m2 : (tg + 1) * (vg + 1) ≤ 64 * 64 := Nat.mul_le_mul (by omega) (by omega)
  have m3 : (tb + 1) * (vb + 1) ≤ 64 * 64 := Nat.mul_le_mul (by omega) (by omega)
  have ma : (talpha + 1) * (polyalpha + 1) ≤ 32 * 32 := Nat.mul_le_mul (by omega) (by omega)
  split_ifs <;> refine ⟨?_, ?_, ?_, ?_⟩ <;> dsimp only <;> omega

/-- C10 (confirmed), component form: with vertex color channels at
most 63, every `(r, g, b, a)` produced by the pixel pipeline has
`r, g, b ≤ 63` and `a ≤ 31`, for any polygon attributes, texture
parameters, display control, toon table and texture contents. -/
theorem renderPixelRGBA_bounds (dispcnt : Nat) (toonTable tex pal : Nat → Nat)
    (attr texparam texpalette : Nat) (vr0 vg0 vb0 : Nat) (s t : Int)
    (hr : vr0 ≤ 63) (hg : vg0 ≤ 63) (hb : vb0 ≤ 63) :
    (renderPixelRGBA dispcnt toonTable tex pal attr texparam texpalette vr0 vg0 vb0 s t).1 ≤ 63 ∧
    (renderPixelRGBA dispcnt toonTable tex pal attr texparam texpalette vr0 vg0 vb0 s t).2.1 ≤ 63 ∧
    (renderPixelRGBA dispcnt toonTable tex pal attr texparam texpalette vr0 vg0 vb0 s t).2.2.1 ≤ 63 ∧
    (renderPixelRGBA dispcnt toonTable tex pal attr texparam texpalette vr0 vg0 vb0 s t).2.2.2 ≤ 31 := by
  unfold renderPixelRGBA
  dsimp only
  have hpa : (attr >>> 16) &&& 0x1F ≤ 31 := Nat.and_le_right
  have hvc := vertexColor_bounds dispcnt toonTable ((attr >>> 4) &&& 0x3) vr0 vg0 vb0 hr hg hb
  have hta := textureLookup_alpha_le tex pal texparam texpalette s t
  have hrgba := texBlend_bounds ((attr >>> 4) &&& 0x3) ((attr >>> 16) &&& 0x1F)
    (TextureLookup tex pal texparam texpalette s t).2
    (colorExpand6 ((TextureLookup tex pal texparam texpalette s t).1 <<< 1))
    (colorExpand6 ((TextureLookup tex pal texparam texpalette s t).1 >>> 4))
    (colorExpand6 ((TextureLookup tex pal texparam texpalette s t).1 >>> 9))
    (vertexColor dispcnt toonTable ((attr >>> 4) &&& 0x3) vr0 vg0 vb0).1
    (vertexColor dispcnt toonTable ((attr >>> 4) &&& 0x3) vr0 vg0 vb0).2.1
    (vertexColor dispcnt toonTable ((attr >>> 4) &&& 0x3) vr0 vg0 vb0).2.2
    hpa hta (colorExpand6_le _) (colorExpand6_le _) (colorExpand6_le _)
    hvc.1 hvc.2.1 hvc.2.2
  by_cases htc : dispcnt &&& (1 <<< 0) ≠ 0 ∧ (texparam >>> 26) &&& 0x7 ≠ 0
  · simp only [if_pos htc]
    by_cases hhl : (attr >>> 4) &&& 0x3 = 2 ∧ dispcnt &&& (1 <<< 1) ≠ 0
    · simp only [if_pos hhl]
      refine ⟨highlightClamp_le _ _, highlightClamp_le _ _, highlightClamp_le _ _, ?_⟩
      split
      · omega
      · exact hrgba.2.2.2
    · simp only [if_neg hhl]
      refine ⟨hrgba.1, hrgba.2.1, hrgba.2.2.1, ?_⟩
      split
      · omega
      · exact hrgba.2.2.2
  · simp only [if_neg htc]
    by_cases hhl : (attr >>> 4) &&& 0x3 = 2 ∧ dispcnt &&& (1 <<< 1) ≠ 0
    · simp only [if_pos hhl]
      refine ⟨highlightClamp_le _ _, highlightClamp_le _ _, highlightClamp_le _ _, ?_⟩
      split <;> omega
    · simp only [if_neg hhl]
      refine ⟨hvc.1, hvc.2.1, hvc.2.2, ?_⟩
      split <;> omega

theorem pack_fields (r g b a : Nat) (hr : r < 256) (hg : g < 256) (hb : b < 256) :
    ((r ||| (g <<< 8) ||| (b <<< 16) ||| (a <<< 24)) &&& 0xFF = r) ∧
    (((r ||| (g <<< 8) ||| (b <<< 16) ||| (a <<< 24)) >>> 8) &&& 0xFF = g) ∧
    (((r ||| (g <<< 8) ||| (b <<< 16) ||| (a <<< 24)) >>> 16) &&& 0xFF = b) ∧
    ((r ||| (g <<< 8) ||| (b <<< 16) ||| (a <<< 24)) >>> 24 = a) := by
  have hmod : ∀ x : Nat, x &&& 0xFF = x % 256 := by
    intro x
    have h1 := Nat.and_pow_two_sub_one_eq_mod x 8
    norm_num at h1
    exact h1
  refine ⟨?_, ?_, ?_, ?_⟩
  · rw [Nat.and_distrib_right, Nat.and_distrib_right, Nat.and_distrib_right,
      hmod, hmod, hmod, hmod]
    have e1 : g <<< 8 % 256 = 0 := by omega
    have e2 : b <<< 16 % 256 = 0 := by omega
    have e3 : a <<< 24 % 256 = 0 := by omega
    rw [e1, e2, e3, Nat.or_zero, Nat.or_zero, Nat.or_zero]
    omega
  · rw [nat_or_shiftRight, nat_or_shiftRight, nat_or_shiftRight,
      Nat.and_distrib_right, Nat.and_distrib_right, Nat.and_distrib_right,
      hmod, hmod, hmod, hmod]
    have e0 : r >>> 8 % 256 = 0 := by omega
    have e1 : (g <<< 8) >>> 8 % 256 = g := by omega
    have e2 : (b <<< 16) >>> 8 % 256 = 0 := by omega
    have e3 : (a <<< 24) >>> 8 % 256 = 0 := by omega
    rw [e0, e1, e2, e3, Nat.or_zero, Nat.or_zero, Nat.zero_or]
  · rw [nat_or_shiftRight, nat_or_shiftRight, nat_or_shiftRight,
      Nat.and_distrib_right, Nat.and_distrib_right, Nat.and_distrib_right,
      hmod, hmod, hmod, hmod]
    have e0 : r >>> 16 % 256 = 0 := by omega
    have e1 : (g <<< 8) >>> 16 % 256 = 0 := by omega
    have e2 : (b <<< 16) >>> 16 % 256 = b := by omega
    have e3 : (a <<< 24) >>> 16 % 256 = 0 := by omega
    rw [e0, e1, e2, e3, Nat.or_zero, Nat.zero_or, Nat.zero_or]
  · rw [nat_or_shiftRight, nat_or_shiftRight, nat_or_shiftRight]
    have e0 : r >>> 24 = 0 := by omega
    have e1 : (g <<< 8) >>> 24 = 0 := by omega
    have e2 : (b <<< 16) >>> 24 = 0 := by omega
    have e3 : (a <<< 24) >>> 24 = a := by omega
    rw [e0, e1, e2, e3, Nat.zero_or, Nat.zero_or, Nat.zero_or]

/-- C10 (confirmed): for every input with vertex color channels
`vr, vg, vb ≤ 63` (and arbitrary polygon attributes, texture
parameters, display control, toon table and texture contents), the
32-bit word returned by `RenderPixel` has each packed RGB field at
most 63 and the alpha field at most 31, so the 6-6-6-5 fields never
overflow into each other. -/
theorem c10_render_pixel_fields (dispcnt : Nat) (toonTable tex pal : Nat → Nat)
    (attr texparam texpalette : Nat) (vr0 vg0 vb0 : Nat) (s t : Int)
    (hr : vr0 ≤ 63) (hg : vg0 ≤ 63) (hb : vb0 ≤ 63) :
    (RenderPixel dispcnt toonTable tex pal attr texparam texpalette vr0 vg0 vb0 s t
      &&& 0xFF) ≤ 63 ∧
    ((RenderPixel dispcnt toonTable tex pal attr texparam texpalette vr0 vg0 vb0 s t
      >>> 8) &&& 0xFF) ≤ 63 ∧
    ((RenderPixel dispcnt toonTable tex pal attr texparam texpalette vr0 vg0 vb0 s t
      >>> 16) &&& 0xFF) ≤ 63 ∧
    (RenderPixel dispcnt toonTable tex pal attr texparam texpalette vr0 vg0 vb0 s t
      >>> 24) ≤ 31 := by
  have hc := renderPixelRGBA_bounds dispcnt toonTable tex pal attr texparam texpalette
    vr0 vg0 vb0 s t hr hg hb
  have hp := pack_fields
    (renderPixelRGBA dispcnt toonTable tex pal attr texparam texpalette vr0 vg0 vb0 s t).1
    (renderPixelRGBA dispcnt toonTable tex pal attr texparam texpalette vr0 vg0 vb0 s t).2.1
    (renderPixelRGBA dispcnt toonTable tex pal attr texparam texpalette vr0 vg0 vb0 s t).2.2.1
    (renderPixelRGBA dispcnt toonTable tex pal attr texparam texpalette vr0 vg0 vb0 s t).2.2.2
    (by omega) (by omega) (by omega)
  unfold RenderPixel
  dsimp only
  rw [hp.1, hp.2.1, hp.2.2.1, hp.2.2.2]
  exact hc

/-- Witness for `c10_render_pixel_fields` at a concrete input. -/
theorem c10_witness :
    (RenderPixel 0 (fun _ => 0) (fun _ => 0) (fun _ => 0) 0 0 0 63 63 63 0 0
      &&& 0xFF) ≤ 63 ∧
    ((RenderPixel 0 (fun _ => 0) (fun _ => 0) (fun _ => 0) 0 0 0 63 63 63 0 0
      >>> 8) &&& 0xFF) ≤ 63 ∧
    ((RenderPixel 0 (fun _ => 0) (fun _ => 0) (fun _ => 0) 0 0 0 63 63 63 0 0
      >>> 16) &&& 0xFF) ≤ 63 ∧
    (RenderPixel 0 (fun _ => 0) (fun _ => 0) (fun _ => 0) 0 0 0 63 63 63 0 0
      >>> 24) ≤ 31 :=
  c10_render_pixel_fields 0 (fun _ => 0) (fun _ => 0) (fun _ => 0) 0 0 0 63 63 63 0 0
    (by decide) (by decide) (by decide)

/-!  ## The shadow-mask scanline renderer (`RenderShadowMaskScanline`)

The renderer state touched here is the stencil buffer (two rows of 256
`u8` cells, indexed `256*(y&1) + x`) and the `PrevIsShadowMask` flag.
The depth and attribute buffers are read-only inputs, modelled as total
functions holding `u32` values.  The polygon is presented through the
fields of `RendererPolygon`/`Polygon` that the function reads, with the
edge slopes in the state they have for line `y`; the vertex-walking
edge re-setup of multi-span polygons (`SetupPolygonLeftEdge` /
`SetupPolygonRightEdge`) is outside this development, and the local
`polyattr`, `interp_start`, `interp_end` and the edge coverages are
computed but never used by the shadow-mask path. -/

structure ShadowPoly where
  attr : Nat
  facingView : Bool
  wbuffer : Bool
  ytop : Int
  ybottom : Int
  xl : Int
  xr : Int
  slopeL : Slope
  slopeR : Slope
  wLcur : Int
  wLnext : Int
  wRcur : Int
  wRnext : Int
  zLcur : Int
  zLnext : Int
  zRcur : Int
  zRnext : Int
deriving Repr, DecidableEq

/-- A `u8` store into the stencil buffer. -/
def stWrite (st : Nat → Nat) (i v : Nat) : Nat → Nat :=
  fun j => if j = i then v % 256 else st j

/-- The `memset` clearing one 256-byte stencil row. -/
def stencilClear (st : Nat → Nat) (base : Nat) : Nat → Nat :=
  fun i => if base ≤ i ∧ i < base + 256 then 0 else st i

/-- One loop iteration of `RenderShadowMaskScanline` at column `x`:
interpolate Z, and where the depth test fails set stencil bits — OR-ing
`0x1` on the left edge (`overwrite = false`) but overwriting with `1`
in the interior and on the right edge (`overwrite = true`); a
bottom-layer failure ORs `0x2`.  The whole body is skipped (`continue`)
when the edge fill rule says not to fill. -/
def shadowColumn (depthB attrB : Nat → Nat) (attr : Nat) (wbuffer facingView : Bool)
    (interpX : Interpolator) (zl zr : Int) (y : Int)
    (filledge overwrite : Bool) (x : Int) (st : Nat → Nat) : Nat → Nat :=
  let pa := pixelAddr y.toNat x.toNat
  let z := (interpX.SetX x).InterpolateZ zl zr wbuffer
  let dstattr := attrB pa
  if filledge then
    let sidx := 256 * (y % 2).toNat + x.toNat
    let st1 :=
      if polygonDepthTest attr wbuffer facingView (s32ofU32 (depthB pa)) z dstattr then st
      else stWrite st sidx (if overwrite then 1 else st sidx ||| 0x1)
    if dstattr &&& 0x3 ≠ 0 ∧
        polygonDepthTest attr wbuffer facingView (s32ofU32 (depthB (pa + BufferSize))) z
          (attrB (pa + BufferSize)) = false then
      stWrite st1 sidx (st1 sidx ||| 0x2)
    else st1
  else st

/-- `for (; x < xlimit; x++) body;` over the stencil, returning the
final stencil and the final loop cursor. -/
def stencilLoop (body : Int → (Nat → Nat) → (Nat → Nat)) (st : Nat → Nat)
    (x xlimit : Int) : (Nat → Nat) × Int :=
  let n := (xlimit - x).toNat
  ((List.range n).foldl (fun (s : Nat → Nat) (i : Nat) => body (x + i) s) st, x + n)

/-- The body of `RenderShadowMaskScanline` after the `PrevIsShadowMask`
handling: edge parameters, early alpha-test return, and the three
stencil passes, finally stepping both slopes. -/
def shadowScanBody (depthB attrB : Nat → Nat) (dispcnt alphaRef : Nat)
    (rp : ShadowPoly) (y : Int) (st1 : Nat → Nat) : (Nat → Nat) × Bool × ShadowPoly :=
  let polyalpha := (rp.attr >>> 16) &&& 0x1F
  let wireframe := polyalpha = 0
  let xstart := rp.xl
  let xend := rp.xr
  let fe : Bool × Bool :=
    if polyalpha < 31 ∨ dispcnt &&& (3 <<< 4) ≠ 0 then (true, true)
    else ((rp.slopeL.Negative || !rp.slopeL.XMajor),
      ((!rp.slopeR.Negative && rp.slopeR.XMajor) || decide (rp.slopeR.Increment = 0)))
  let wl := rp.slopeL.Interp.Interpolate rp.wLcur rp.wLnext
  let wr := rp.slopeR.Interp.Interpolate rp.wRcur rp.wRnext
  let zl := rp.slopeL.Interp.InterpolateZ rp.zLcur rp.zLnext rp.wbuffer
  let zr := rp.slopeR.Interp.InterpolateZ rp.zRcur rp.zRnext rp.wbuffer
  -- swap ends when the edges cross
  let xs := if xend < xstart then xend else xstart
  let xe := if xend < xstart then xstart else xend
  let wl2 := if xend < xstart then wr else wl
  let wr2 := if xend < xstart then wl else wr
  let zl2 := if xend < xstart then zr else zl
  let zr2 := if xend < xstart then zl else zr
  let ledge := if xend < xstart then rp.slopeR.EdgeParams_YMajor else rp.slopeL.EdgeParams
  let redge := if xend < xstart then rp.slopeL.EdgeParams_YMajor else rp.slopeR.EdgeParams
  let fel := if xend < xstart then fe.2 else fe.1
  let fer := if xend < xstart then fe.1 else fe.2
  let polyalpha2 := if wireframe then 31 else polyalpha
  if polyalpha2 ≤ alphaRef then (st1, true, rp)
  else
    let yedge : Nat := if y = rp.ytop then 0x4 else if y = rp.ybottom - 1 then 0x8 else 0
    let interpX := Interpolator.Setup 0 xs (xe + 1) wl2 wr2
    let x0 : Int := if xs < 0 then 0 else xs
    let col := shadowColumn depthB attrB rp.attr rp.wbuffer rp.facingView interpX zl2 zr2 y
    let xlim1 := min (min (xs + ledge.1) (xe + 1)) 256
    let p1 := stencilLoop (col fel false) st1 x0 xlim1
    let xlim2 := min (min (xe - redge.1 + 1) (xe + 1)) 256
    let p2 :=
      if wireframe ∧ yedge = 0 then (p1.1, xlim2)
      else stencilLoop (col true true) p1.1 p1.2 xlim2
    let xlim3 := min (xe + 1) 256
    let p3 := stencilLoop (col fer true) p2.1 p2.2 xlim3
    let slopeL2 := rp.slopeL.Step
    let slopeR2 := rp.slopeR.Step
    let rp2 := { rp with slopeL := slopeL2, slopeR := slopeR2, xl := slopeL2.XVal, xr := slopeR2.XVal }
    (p3.1, true, rp2)

/-- `RenderShadowMaskScanline(rp, y)` as a transformer of the stencil
buffer and the `PrevIsShadowMask` flag: the stencil row for line `y` is
cleared first when the previous polygon was not a shadow mask. -/
def RenderShadowMaskScanline (depthB attrB : Nat → Nat) (dispcnt alphaRef : Nat)
    (rp : ShadowPoly) (y : Int) (st0 : Nat → Nat) (prev : Bool) :
    (Nat → Nat) × Bool × ShadowPoly :=
  shadowScanBody depthB attrB dispcnt alphaRef rp y
    (if prev then st0 else stencilClear st0 (256 * (y % 2).toNat))

/-! ### Locality of the stencil passes -/

theorem stencilFoldl_outside (body : Int → (Nat → Nat) → Nat → Nat) (st : Nat → Nat)
    (x : Int) (n : Nat) (j : Nat)
    (hb : ∀ i : Nat, i < n → ∀ s : Nat → Nat, body (x + i) s j = s j) :
    ((List.range n).foldl (fun (s : Nat → Nat) (i : Nat) => body (x + i) s) st) j = st j := by
  induction n generalizing st with
  | zero => rfl
  | succ n ih =>
      rw [List.range_succ, List.foldl_append]
      simp only [List.foldl_cons, List.foldl_nil]
      rw [hb n (by omega) _]
      exact ih st (fun i hi s => hb i (by omega) s)

theorem shadowColumn_outside {depthB attrB : Nat → Nat} {attr : Nat}
    {wbuffer facingView : Bool} {interpX : Interpolator} {zl zr : Int} {y : Int}
    {fe ow : Bool} {x : Int} {st : Nat → Nat} {j : Nat}
    (hx : x < 256)
    (hj : j < 256 * (y % 2).toNat ∨ 256 * (y % 2).toNat + 256 ≤ j) :
    shadowColumn depthB attrB attr wbuffer facingView interpX zl zr y fe ow x st j
      = st j := by
  have hxe : x.toNat < 256 := by omega
  have hne : ¬(j = 256 * (y % 2).toNat + x.toNat) := by omega
  unfold shadowColumn stWrite
  dsimp only
  split_ifs <;> simp only [if_neg hne]

theorem shadowLoop_outside {depthB attrB : Nat → Nat} {attr : Nat}
    {wbuffer facingView : Bool} {interpX : Interpolator} {zl zr : Int} {y : Int}
    {fe ow : Bool} {st : Nat → Nat} {x xlim : Int} {j : Nat}
    (hlim : xlim ≤ 256)
    (hj : j < 256 * (y % 2).toNat ∨ 256 * (y % 2).toNat + 256 ≤ j) :
    (stencilLoop (shadowColumn depthB attrB attr wbuffer facingView interpX zl zr y fe ow)
      st x xlim).1 j = st j := by
  unfold stencilLoop
  dsimp only
  apply stencilFoldl_outside
  intro i hi s
  exact shadowColumn_outside (by omega) hj

theorem ite_fst_apply {γ : Type} {c : Prop} [Decidable c]
    (A B : (Nat → Nat) × γ) (j v : Nat) (hA : A.1 j = v) (hB : B.1 j = v) :
    (if c then A else B).1 j = v := by
  by_cases h : c
  · rw [if_pos h]
    exact hA
  · rw [if_neg h]
    exact hB

theorem shadowScanBody_outside (depthB attrB : Nat → Nat) (dispcnt alphaRef : Nat)
    (rp : ShadowPoly) (y : Int) (st : Nat → Nat) (j : Nat)
    (hj : j < 256 * (y % 2).toNat ∨ 256 * (y % 2).toNat + 256 ≤ j) :
    (shadowScanBody depthB attrB dispcnt alphaRef rp y st).1 j = st j := by
  unfold shadowScanBody
  dsimp only
  apply ite_fst_apply
  · rfl
  · dsimp only
    rw [shadowLoop_outside (min_le_right _ _) hj]
    apply ite_fst_apply
    · dsimp only
      rw [shadowLoop_outside (min_le_right _ _) hj]
    · rw [shadowLoop_outside (min_le_right _ _) hj,
        shadowLoop_outside (min_le_right _ _) hj]

/-! ### C7: zeroing and (non-)accumulation of the stencil -/

/-- The depth buffers for the C7 counterexample: the top layer holds
depth 0x1000 everywhere, the bottom layer 0x2000. -/
def c7depth : Nat → Nat := fun a => if a < BufferSize then 0x1000 else 0x2000

/-- Attribute buffers for the C7 counterexample: every pixel has the
low two attribute bits set, so the bottom-layer stencil pass runs. -/
def c7attrB : Nat → Nat := fun _ => 3

/-- First shadow-mask polygon: a rectangle with vertical edges over
columns 0..9, depth-equal test (attr bit 14), opaque, at depth 0x1000
with the same Z on the whole scanline. -/
def c7mask1 : ShadowPoly :=
  { attr := 0x1F4000, facingView := false, wbuffer := false,
    ytop := 0, ybottom := 8,
    xl := (Slope.Setup false 0 0 0 8 0 0 0).XVal,
    xr := (Slope.Setup true 10 10 0 8 0 0 0).XVal,
    slopeL := Slope.Setup false 0 0 0 8 0 0 0,
    slopeR := Slope.Setup true 10 10 0 8 0 0 0,
    wLcur := 0, wLnext := 0, wRcur := 0, wRnext := 0,
    zLcur := 0x1000, zLnext := 0x1000, zRcur := 0x1000, zRnext := 0x1000 }

/-- Second shadow-mask polygon: same geometry, less-than test (attr bit
14 clear, back-facing), at depth 0x1800. -/
def c7mask2 : ShadowPoly :=
  { attr := 0x1F0000, facingView := false, wbuffer := false,
    ytop := 0, ybottom := 8,
    xl := (Slope.Setup false 0 0 0 8 0 0 0).XVal,
    xr := (Slope.Setup true 10 10 0 8 0 0 0).XVal,
    slopeL := Slope.Setup false 0 0 0 8 0 0 0,
    slopeR := Slope.Setup true 10 10 0 8 0 0 0,
    wLcur := 0, wLnext := 0, wRcur := 0, wRnext := 0,
    zLcur := 0x1800, zLnext := 0x1800, zRcur := 0x1800, zRnext := 0x1800 }

/-- C7, counterexample: consecutive shadow-mask polygons do **not**
purely accumulate stencil bits.  The first mask passes the top-layer
depth-equal test but fails on the bottom layer at column 5, leaving
stencil byte 2 (bit 0x2).  The second mask fails its top-layer
less-than test there, and the interior pass **overwrites** the byte
with 1 (`StencilBuffer[...] = 1`), erasing bit 0x2: the result is 1,
not the accumulated 3. -/
theorem c7_counterexample :
    (RenderShadowMaskScanline c7depth c7attrB 0 0 c7mask1 0 (fun _ => 7) false).1 5 = 2 ∧
    (RenderShadowMaskScanline c7depth c7attrB 0 0 c7mask2 0
        (RenderShadowMaskScanline c7depth c7attrB 0 0 c7mask1 0 (fun _ => 7) false).1
        (RenderShadowMaskScanline c7depth c7attrB 0 0 c7mask1 0 (fun _ => 7) false).2.1).1 5
      = 1 ∧
    (RenderShadowMaskScanline c7depth c7attrB 0 0 c7mask2 0
        (RenderShadowMaskScanline c7depth c7attrB 0 0 c7mask1 0 (fun _ => 7) false).1
        (RenderShadowMaskScanline c7depth c7attrB 0 0 c7mask1 0 (fun _ => 7) false).2.1).1 0
      = 3 := by
  refine ⟨by decide, by decide, by decide⟩

/-- C7 (amended): the zeroing half of the claim holds — rendering a
shadow-mask polygon with `PrevIsShadowMask` clear is the same as first
zeroing the 256-byte stencil row of line `y` and rendering with the
flag set — and all stencil writes stay inside that row: any cell
outside it is unchanged.  The accumulation half is corrected by the
counterexample: interior and right-edge top-layer failures overwrite
the stencil byte with 1 instead of OR-ing it. -/
theorem c7_stencil_row (depthB attrB : Nat → Nat) (dispcnt alphaRef : Nat)
    (rp : ShadowPoly) (y : Int) (st : Nat → Nat) (j : Nat)
    (hj : j < 256 * (y % 2).toNat ∨ 256 * (y % 2).toNat + 256 ≤ j) :
    RenderShadowMaskScanline depthB attrB dispcnt alphaRef rp y st false =
      RenderShadowMaskScanline depthB attrB dispcnt alphaRef rp y
        (stencilClear st (256 * (y % 2).toNat)) true ∧
    (RenderShadowMaskScanline depthB attrB dispcnt alphaRef rp y st true).1 j = st j :=
  ⟨rfl, shadowScanBody_outside depthB attrB dispcnt alphaRef rp y st j hj⟩

/-- Witness for `c7_stencil_row`: line 0, a cell in the other stencil
row. -/
theorem c7_witness :
    RenderShadowMaskScanline (fun _ => 0) (fun _ => 0) 0 0 c7mask1 0 (fun _ => 5) false =
      RenderShadowMaskScanline (fun _ => 0) (fun _ => 0) 0 0 c7mask1 0
        (stencilClear (fun _ => 5) (256 * ((0 : Int) % 2).toNat)) true ∧
    (RenderShadowMaskScanline (fun _ => 0) (fun _ => 0) 0 0 c7mask1 0 (fun _ => 5) true).1 300
      = 5 :=
  c7_stencil_row (fun _ => 0) (fun _ => 0) 0 0 c7mask1 0 (fun _ => 5) 300
    (Or.inr (by decide))

end SoftRenderer
